import Mathlib

/-!
Verification development for the control-protocol engine of the Go SDK
(schlunsen/claude-agent-sdk-go).

The Go source is shallowly embedded: the JSON values exchanged with the
child process become an inductive `Json` type, the Go `encoding/json` package
behaviour (as exercised by the SDK) is modelled by a concrete parser and
by per-field extraction helpers that follow the documented Go unmarshalling
rules (in particular: unmarshalling JSON `null` into a non-pointer Go
value is a no-op that succeeds), and each Go function under test becomes
a Lean function of the same name.  Concurrency is modelled by explicit
state passing: the mutex-guarded state of a transport or query is a
structure, and each Go method is a state-transition function whose
non-deterministic environment (I/O results, callback results) is passed
in as an explicit argument.
-/

set_option maxRecDepth 10000

namespace SDK

/-- JSON values, as produced by the Go `encoding/json` package when decoding into
`interface\x7b\x7d`-like positions.  Numbers keep their source lexeme: no claim
in this development inspects a decoded numeric value, and keeping the
lexeme avoids modelling float64. -/
inductive Json where
  | null : Json
  | bool (b : Bool) : Json
  | num (lexeme : String) : Json
  | str (s : String) : Json
  | arr (elems : List Json) : Json
  | obj (fields : List (String × Json)) : Json

/-- A JSON object payload: the Go type `map[string]interface\x7b\x7d`.  Later bindings
shadow earlier ones, matching the Go duplicate-key behaviour. -/
abbrev JsonObj := List (String × Json)

/-- Last-binding-wins lookup in an object, matching how `encoding/json`
fills a Go map (later duplicate keys overwrite earlier ones). -/
def objGet (k : String) (fields : JsonObj) : Option Json :=
  fields.foldl (fun acc kv => if kv.1 = k then some kv.2 else acc) none

/-- Go map lookup `m[k]` where `m : map[string]X` built from an assoc list;
first binding wins because insertion replaces existing keys. -/
def mapFind (k : String) (m : List (String × α)) : Option α :=
  (m.find? (fun kv => kv.1 = k)).map (·.2)

/-- Go `delete(m, k)`. -/
def mapErase (k : String) (m : List (String × α)) : List (String × α) :=
  m.filter (fun kv => kv.1 ≠ k)

/-- Go `m[k] = v`. -/
def mapInsert (k : String) (v : α) (m : List (String × α)) : List (String × α) :=
  (k, v) :: mapErase k m

theorem mapFind_cons (k : String) (kv : String × α) (t : List (String × α)) :
    mapFind k (kv :: t) = if kv.1 = k then some kv.2 else mapFind k t := by
  by_cases h : kv.1 = k
  · simp [mapFind, List.find?_cons_of_pos, h]
  · simp [mapFind, List.find?_cons_of_neg, h]

theorem mapErase_cons (k : String) (kv : String × α) (t : List (String × α)) :
    mapErase k (kv :: t) = if kv.1 = k then mapErase k t else kv :: mapErase k t := by
  by_cases h : kv.1 = k <;> simp [mapErase, List.filter_cons, h]

theorem mapFind_mapErase_self (k : String) (m : List (String × α)) :
    mapFind k (mapErase k m) = none := by
  induction m with
  | nil => rfl
  | cons kv t ih =>
    rw [mapErase_cons]
    by_cases h : kv.1 = k
    · simpa [h] using ih
    · rw [if_neg h, mapFind_cons, if_neg h]; exact ih

theorem mapFind_mapErase_other (k k' : String) (hk : k' ≠ k) (m : List (String × α)) :
    mapFind k' (mapErase k m) = mapFind k' m := by
  induction m with
  | nil => rfl
  | cons kv t ih =>
    rw [mapErase_cons]
    by_cases h : kv.1 = k
    · have hne : kv.1 ≠ k' := fun hh => hk (by rw [← hh, h])
      rw [if_pos h, mapFind_cons, if_neg hne]; exact ih
    · rw [if_neg h, mapFind_cons, mapFind_cons]
      by_cases h2 : kv.1 = k'
      · rw [if_pos h2, if_pos h2]
      · rw [if_neg h2, if_neg h2]; exact ih

theorem mapFind_mapInsert_self (k : String) (v : α) (m : List (String × α)) :
    mapFind k (mapInsert k v m) = some v := by
  rw [mapInsert, mapFind_cons]; simp

theorem mapFind_mapInsert_other (k k' : String) (hk : k' ≠ k) (v : α) (m : List (String × α)) :
    mapFind k' (mapInsert k v m) = mapFind k' m := by
  rw [mapInsert, mapFind_cons, if_neg (fun hh : k = k' => hk hh.symm)]
  exact mapFind_mapErase_other k k' hk m

/-- The typed error values of the SDK (`types/errors.go`).  Each constructor
mirrors one exported error struct; `generic` stands for errors produced
with `fmt.Errorf` or surfaced by the standard library. -/
inductive SDKError where
  | cliNotFound (message : String) (cause : Option SDKError)
  | cliConnection (message : String) (cause : Option SDKError)
  | processErr (message : String) (exitCode : Int) (cause : Option SDKError)
  | jsonDecode (message raw : String) (cause : Option SDKError)
  | messageParse (message messageType : String) (cause : Option SDKError)
  | controlProtocol (message : String) (cause : Option SDKError)
  | permissionDenied (message toolName reason : String) (cause : Option SDKError)
  | sessionNotFound (sessionID message : String) (cause : Option SDKError)
  | generic (message : String)

/-- Go `NewControlProtocolError` (`types/errors.go`). -/
def NewControlProtocolError (message : String) : SDKError :=
  .controlProtocol message none

/-- Go `NewControlProtocolErrorWithCause`. -/
def NewControlProtocolErrorWithCause (message : String) (cause : SDKError) : SDKError :=
  .controlProtocol message (some cause)

/-- Go `NewCLIConnectionError`. -/
def NewCLIConnectionError (message : String) : SDKError :=
  .cliConnection message none

/-- Go `NewCLIConnectionErrorWithCause`. -/
def NewCLIConnectionErrorWithCause (message : String) (cause : SDKError) : SDKError :=
  .cliConnection message (some cause)

/-- Go `NewJSONDecodeErrorWithCause`. -/
def NewJSONDecodeErrorWithCause (message raw : String) (cause : SDKError) : SDKError :=
  .jsonDecode message raw (some cause)

/-- Go `NewMessageParseErrorWithType`. -/
def NewMessageParseErrorWithType (message messageType : String) : SDKError :=
  .messageParse message messageType none

/-- Go `NewSessionNotFoundError`. -/
def NewSessionNotFoundError (sessionID message : String) : SDKError :=
  .sessionNotFound sessionID message none

/-- The raw-snippet truncation performed by `JSONDecodeError.Error()`
(`types/errors.go`, lines 139-145): a raw payload longer than 100
characters is cut to its first 100 characters plus an ellipsis. -/
def jsonDecodeSnippet (raw : String) : String :=
  if raw.length > 100 then (raw.take 100) ++ "..." else raw

mutual
/-- Go `Error()` rendering of the SDK error types (`types/errors.go`).  Only
the pieces a claim inspects are needed; each branch follows the
corresponding Go `Error()` method. -/
def SDKError.render : SDKError → String
  | .cliNotFound m c => m ++ renderCause c
  | .cliConnection m c => m ++ renderCause c
  | .processErr m code c =>
      (if code ≠ 0 then m ++ " (exit code: " ++ toString code ++ ")" else m) ++ renderCause c
  | .jsonDecode m raw c =>
      (if raw ≠ "" then m ++ " (raw: " ++ jsonDecodeSnippet raw ++ ")" else m) ++ renderCause c
  | .messageParse m ty c =>
      (if ty ≠ "" then m ++ " (type: " ++ ty ++ ")" else m) ++ renderCause c
  | .controlProtocol m c => m ++ renderCause c
  | .permissionDenied m tool reason c =>
      ((if tool ≠ "" then m ++ " (tool: " ++ tool ++ ")" else m)
        |> fun s => if reason ≠ "" then s ++ " - " ++ reason else s) ++ renderCause c
  | .sessionNotFound sid m c =>
      (if sid ≠ "" then m ++ " (session ID: " ++ sid ++ ")" else m) ++ renderCause c
  | .generic m => m

/-- The `": " + cause.Error()` suffix shared by every `Error()` method. -/
def renderCause : Option SDKError → String
  | none => ""
  | some c => ": " ++ c.render
end

/-! ### Go `encoding/json` semantics, as exercised by the SDK

`encoding/json` decodes a JSON object field into a Go struct field by
type.  The documented rules the SDK relies on: a missing key leaves the
field at its zero value; JSON `null` into a non-pointer value is a no-op
that succeeds; JSON `null` into a pointer or slice or map or
`interface\x7b\x7d` yields `nil`; a type mismatch is an error.  Error message
texts from the standard library are abbreviated here (no claim inspects
them). -/

/-- Decode a field into a Go `string` (zero value `""`). -/
def goFieldString (j : Option Json) : Except String String :=
  match j with
  | none => .ok ""
  | some .null => .ok ""
  | some (.str s) => .ok s
  | some _ => .error "cannot unmarshal value into Go field of type string"

/-- Decode a field into a Go `*string`. -/
def goFieldStringPtr (j : Option Json) : Except String (Option String) :=
  match j with
  | none => .ok none
  | some .null => .ok none
  | some (.str s) => .ok (some s)
  | some _ => .error "cannot unmarshal value into Go field of type *string"

/-- Decode a field into a Go `*bool`. -/
def goFieldBoolPtr (j : Option Json) : Except String (Option Bool) :=
  match j with
  | none => .ok none
  | some .null => .ok none
  | some (.bool b) => .ok (some b)
  | some _ => .error "cannot unmarshal value into Go field of type *bool"

/-- Decode a field into a Go `bool` (zero value `false`). -/
def goFieldBool (j : Option Json) : Except String Bool :=
  match j with
  | none => .ok false
  | some .null => .ok false
  | some (.bool b) => .ok b
  | some _ => .error "cannot unmarshal value into Go field of type bool"

/-- Go `strconv`-style integer lexeme: an optional minus sign followed by
one or more digits.  A fractional or exponent lexeme is rejected, as Go
rejects `5.0` for an `int` field. -/
def parseIntLexeme (lex : String) : Option Int :=
  let core := if lex.startsWith "-" then lex.drop 1 else lex
  if core.length > 0 ∧ core.toList.all Char.isDigit then
    let n : Nat := core.toList.foldl (fun acc c => acc * 10 + (c.toNat - 48)) 0
    some (if lex.startsWith "-" then -(n : Int) else (n : Int))
  else none

/-- Decode a field into a Go `int` (zero value `0`). -/
def goFieldInt (j : Option Json) : Except String Int :=
  match j with
  | none => .ok 0
  | some .null => .ok 0
  | some (.num lex) =>
      match parseIntLexeme lex with
      | some n => .ok n
      | none => .error "cannot unmarshal number into Go field of type int"
  | some _ => .error "cannot unmarshal value into Go field of type int"

/-- Decode a field into a Go `*float64`; the numeric lexeme is kept. -/
def goFieldNumPtr (j : Option Json) : Except String (Option String) :=
  match j with
  | none => .ok none
  | some .null => .ok none
  | some (.num lex) => .ok (some lex)
  | some _ => .error "cannot unmarshal value into Go field of type *float64"

/-- Decode a field into a Go `map[string]interface\x7b\x7d` (`nil` map ↦ `none`). -/
def goFieldObj (j : Option Json) : Except String (Option JsonObj) :=
  match j with
  | none => .ok none
  | some .null => .ok none
  | some (.obj o) => .ok (some o)
  | some _ => .error "cannot unmarshal value into Go field of type map"

/-- Decode a field into a Go `interface\x7b\x7d` (`nil` ↦ `none`). -/
def goFieldAny (j : Option Json) : Option Json :=
  match j with
  | none => none
  | some .null => none
  | some v => some v

/-- Decode a field into a Go `json.RawMessage`: a missing key leaves the
raw message `nil`; a present key captures the raw value, `null` included. -/
def goFieldRaw (j : Option Json) : Option Json := j

/-- Go `json.Unmarshal` of a captured raw message into a Go `string`,
as in the first leg of `UserMessage.UnmarshalJSON`: a `nil` raw message
is "unexpected end of JSON input"; `null` is a successful no-op (the
target keeps its zero value, reported here as `none`). -/
def goRawAsString (r : Option Json) : Except String (Option String) :=
  match r with
  | none => .error "unexpected end of JSON input"
  | some .null => .ok none
  | some (.str s) => .ok (some s)
  | some _ => .error "cannot unmarshal value into Go value of type string"

/-- Go `json.Unmarshal` of a captured raw message into `[]json.RawMessage`,
as in the second leg of `UserMessage.UnmarshalJSON`.  `null` succeeds and
leaves the slice `nil` (`none`). -/
def goRawAsArr (r : Option Json) : Except String (Option (List Json)) :=
  match r with
  | none => .error "unexpected end of JSON input"
  | some .null => .ok none
  | some (.arr xs) => .ok (some xs)
  | some _ => .error "cannot unmarshal value into Go value of type slice"

/-- Decode a field into Go `[]json.RawMessage` (struct-field position:
a missing key or `null` leaves the slice `nil`). -/
def goFieldRawArr (j : Option Json) : Except String (Option (List Json)) :=
  match j with
  | none => .ok none
  | some .null => .ok none
  | some (.arr xs) => .ok (some xs)
  | some _ => .error "cannot unmarshal value into Go field of type slice"

/-- Decode a field into Go `map[string]json.RawMessage`. -/
def goFieldRawMap (j : Option Json) : Except String (Option JsonObj) :=
  match j with
  | none => .ok none
  | some .null => .ok none
  | some (.obj o) => .ok (some o)
  | some _ => .error "cannot unmarshal value into Go field of type map"

/-- Go `json.Unmarshal(data, &typeCheck)` where `typeCheck` is
`struct \x7b Type string \x7d`: the whole value must be an object (or `null`,
a no-op leaving the zero struct); the `"type"` key, when present, must
be a string or `null`. -/
def goTypeField (data : Json) : Except String String :=
  match data with
  | .null => .ok ""
  | .obj fields => goFieldString (objGet "type" fields)
  | _ => .error "cannot unmarshal value into Go value of type struct"

/-- Canonical compact re-rendering of a JSON value.  Used to fill the
`Raw` field of decode errors raised below the top level, where the Go
code stores the raw byte slice of the sub-value (`string(data)`); no
claim inspects those nested raw strings. -/
def renderJsonString (s : String) : String :=
  "\"" ++ (s.toList.map (fun c =>
      if c = '"' then "\\\"" else if c = '\\' then "\\\\" else String.singleton c)).foldl
    (· ++ ·) "" ++ "\""

mutual
def Json.render : Json → String
  | .null => "null"
  | .bool true => "true"
  | .bool false => "false"
  | .num lex => lex
  | .str s => renderJsonString s
  | .arr xs => "[" ++ renderJsonList xs ++ "]"
  | .obj fs => "\x7b" ++ renderJsonFields fs ++ "\x7d"

def renderJsonList : List Json → String
  | [] => ""
  | [x] => x.render
  | x :: rest => x.render ++ "," ++ renderJsonList rest

def renderJsonFields : List (String × Json) → String
  | [] => ""
  | [(k, v)] => renderJsonString k ++ ":" ++ v.render
  | (k, v) :: rest => renderJsonString k ++ ":" ++ v.render ++ "," ++ renderJsonFields rest
end

/-! ### Message data model (`types/messages.go`) -/

/-- Go `ContentBlock` variants (`types/messages.go`).  Each carries its
`Type` discriminant string exactly as decoded. -/
inductive ContentBlock where
  | text (type text : String)
  | thinking (type thinking signature : String)
  | toolUse (type id name : String) (input : Option JsonObj)
  | toolResult (type toolUseID : String) (content : Option Json) (isError : Option Bool)

/-- Go `UserMessage.Content`: Go `interface\x7b\x7d` holding a `string` or a
`[]ContentBlock`. -/
inductive UserContent where
  | ofString (s : String)
  | ofBlocks (blocks : List ContentBlock)

structure UserMessage where
  type : String
  content : UserContent
  parentToolUseID : Option String

structure AssistantMessage where
  type : String
  content : List ContentBlock
  model : String
  parentToolUseID : Option String

structure SystemMessage where
  type : String
  subtype : String
  data : Option JsonObj
  response : Option JsonObj
  request : Option JsonObj

structure ResultMessage where
  type : String
  subtype : String
  durationMs : Int
  durationAPIMs : Int
  isError : Bool
  numTurns : Int
  sessionID : String
  totalCostUSD : Option String
  usage : Option JsonObj
  result : Option String

structure StreamEvent where
  type : String
  uuid : String
  sessionID : String
  event : Option JsonObj
  parentToolUseID : Option String

/-- The `Message` interface: a closed variant over the five structs. -/
inductive Message where
  | user (m : UserMessage)
  | assistant (m : AssistantMessage)
  | system (m : SystemMessage)
  | result (m : ResultMessage)
  | streamEvent (m : StreamEvent)

/-- Go `GetMessageType()`: every implementation returns its `Type` field. -/
def Message.getMessageType : Message → String
  | .user m => m.type
  | .assistant m => m.type
  | .system m => m.type
  | .result m => m.type
  | .streamEvent m => m.type

/-- Go `UnmarshalContentBlock` (`types/messages.go`, lines 85-121). -/
def UnmarshalContentBlock (data : Json) : Except SDKError ContentBlock :=
  match goTypeField data with
  | .error e =>
      .error (NewJSONDecodeErrorWithCause "failed to determine content block type"
        data.render (.generic e))
  | .ok ty =>
    match ty with
    | "text" =>
        (match data with
         | .obj fields =>
             (match goFieldString (objGet "type" fields),
                    goFieldString (objGet "text" fields) with
              | .ok t, .ok te => .ok (.text t te)
              | .error e, _ =>
                  .error (NewJSONDecodeErrorWithCause "failed to unmarshal text block"
                    data.render (.generic e))
              | _, .error e =>
                  .error (NewJSONDecodeErrorWithCause "failed to unmarshal text block"
                    data.render (.generic e)))
         | _ => .ok (.text "" ""))
    | "thinking" =>
        (match data with
         | .obj fields =>
             (match goFieldString (objGet "type" fields),
                    goFieldString (objGet "thinking" fields),
                    goFieldString (objGet "signature" fields) with
              | .ok t, .ok th, .ok sig => .ok (.thinking t th sig)
              | .error e, _, _ =>
                  .error (NewJSONDecodeErrorWithCause "failed to unmarshal thinking block"
                    data.render (.generic e))
              | _, .error e, _ =>
                  .error (NewJSONDecodeErrorWithCause "failed to unmarshal thinking block"
                    data.render (.generic e))
              | _, _, .error e =>
                  .error (NewJSONDecodeErrorWithCause "failed to unmarshal thinking block"
                    data.render (.generic e)))
         | _ => .ok (.thinking "" "" ""))
    | "tool_use" =>
        (match data with
         | .obj fields =>
             (match goFieldString (objGet "type" fields),
                    goFieldString (objGet "id" fields),
                    goFieldString (objGet "name" fields),
                    goFieldObj (objGet "input" fields) with
              | .ok t, .ok i, .ok n, .ok inp => .ok (.toolUse t i n inp)
              | .error e, _, _, _ =>
                  .error (NewJSONDecodeErrorWithCause "failed to unmarshal tool_use block"
                    data.render (.generic e))
              | _, .error e, _, _ =>
                  .error (NewJSONDecodeErrorWithCause "failed to unmarshal tool_use block"
                    data.render (.generic e))
              | _, _, .error e, _ =>
                  .error (NewJSONDecodeErrorWithCause "failed to unmarshal tool_use block"
                    data.render (.generic e))
              | _, _, _, .error e =>
                  .error (NewJSONDecodeErrorWithCause "failed to unmarshal tool_use block"
                    data.render (.generic e)))
         | _ => .ok (.toolUse "" "" "" none))
    | "tool_result" =>
        (match data with
         | .obj fields =>
             (match goFieldString (objGet "type" fields),
                    goFieldString (objGet "tool_use_id" fields),
                    goFieldBoolPtr (objGet "is_error" fields) with
              | .ok t, .ok tid, .ok ise =>
                  .ok (.toolResult t tid (goFieldAny (objGet "content" fields)) ise)
              | .error e, _, _ =>
                  .error (NewJSONDecodeErrorWithCause "failed to unmarshal tool_result block"
                    data.render (.generic e))
              | _, .error e, _ =>
                  .error (NewJSONDecodeErrorWithCause "failed to unmarshal tool_result block"
                    data.render (.generic e))
              | _, _, .error e =>
                  .error (NewJSONDecodeErrorWithCause "failed to unmarshal tool_result block"
                    data.render (.generic e)))
         | _ => .ok (.toolResult "" "" none none))
    | _ => .error (NewMessageParseErrorWithType "unknown content block type" ty)

/-- The content-block loop shared by the user and assistant decoders:
`UnmarshalContentBlock` on each raw block, aborting at the first error. -/
def unmarshalBlocks : List Json → Except SDKError (List ContentBlock)
  | [] => .ok []
  | b :: rest => do
      let blk ← UnmarshalContentBlock b
      let restBlocks ← unmarshalBlocks rest
      .ok (blk :: restBlocks)

/-- Go `UserMessage.UnmarshalJSON` (`types/messages.go`, lines 150-186):
decode the envelope (`type`, `parent_tool_use_id`, raw `content`), then
try the content as a plain string, then as an array of content blocks;
any other shape is the `fmt.Errorf` "content must be string or array of
content blocks". -/
def userUnmarshalJSON (data : Json) : Except SDKError UserMessage :=
  match data with
  | .null => .ok ⟨"", .ofString "", none⟩
  | .obj fields =>
      (match goFieldString (objGet "type" fields),
             goFieldStringPtr (objGet "parent_tool_use_id" fields) with
       | .ok ty, .ok ptui =>
           let rawContent := goFieldRaw (objGet "content" fields)
           (match goRawAsString rawContent with
            | .ok v => .ok ⟨ty, .ofString (v.getD ""), ptui⟩
            | .error _ =>
              match goRawAsArr rawContent with
              | .ok v =>
                  (match unmarshalBlocks (v.getD []) with
                   | .ok blocks => .ok ⟨ty, .ofBlocks blocks, ptui⟩
                   | .error e => .error e)
              | .error _ =>
                  .error (.generic "content must be string or array of content blocks"))
       | .error e, _ => .error (.generic e)
       | _, .error e => .error (.generic e))
  | _ => .error (.generic "cannot unmarshal value into Go value of type struct")

/-- Go `AssistantMessage.UnmarshalJSON` (`types/messages.go`, lines 209-258):
content blocks are taken from the nested `message.content` when that
decodes as an array, otherwise from the top-level `content`; the model
string is likewise overridden by a nested `message.model` string. -/
def assistantUnmarshalJSON (data : Json) : Except SDKError AssistantMessage :=
  match data with
  | .null => .ok ⟨"", [], "", none⟩
  | .obj fields =>
      (match goFieldString (objGet "type" fields),
             goFieldString (objGet "model" fields),
             goFieldStringPtr (objGet "parent_tool_use_id" fields),
             goFieldRawArr (objGet "content" fields),
             goFieldRawMap (objGet "message" fields) with
       | .ok ty, .ok model0, .ok ptui, .ok topContent, .ok msgMap =>
           let nestedContent : Option (List Json) :=
             match msgMap with
             | none => none
             | some m =>
               match objGet "content" m with
               | none => none
               | some raw =>
                 match goRawAsArr (some raw) with
                 | .ok v => v
                 | .error _ => none
           let model : String :=
             match msgMap with
             | none => model0
             | some m =>
               match objGet "model" m with
               | none => model0
               | some raw =>
                 match raw with
                 | .str s => s
                 | _ => model0
           let contentBlocks : List Json :=
             match nestedContent with
             | some cs => cs
             | none => topContent.getD []
           (match unmarshalBlocks contentBlocks with
            | .ok blocks => .ok ⟨ty, blocks, model, ptui⟩
            | .error e => .error e)
       | .error e, _, _, _, _ => .error (.generic e)
       | _, .error e, _, _, _ => .error (.generic e)
       | _, _, .error e, _, _ => .error (.generic e)
       | _, _, _, .error e, _ => .error (.generic e)
       | _, _, _, _, .error e => .error (.generic e))
  | _ => .error (.generic "cannot unmarshal value into Go value of type struct")

/-- Plain struct unmarshal of `SystemMessage`. -/
def systemUnmarshalJSON (data : Json) : Except SDKError SystemMessage :=
  match data with
  | .null => .ok ⟨"", "", none, none, none⟩
  | .obj fields =>
      (match goFieldString (objGet "type" fields),
             goFieldString (objGet "subtype" fields),
             goFieldObj (objGet "data" fields),
             goFieldObj (objGet "response" fields),
             goFieldObj (objGet "request" fields) with
       | .ok ty, .ok st, .ok d, .ok resp, .ok req => .ok ⟨ty, st, d, resp, req⟩
       | .error e, _, _, _, _ => .error (.generic e)
       | _, .error e, _, _, _ => .error (.generic e)
       | _, _, .error e, _, _ => .error (.generic e)
       | _, _, _, .error e, _ => .error (.generic e)
       | _, _, _, _, .error e => .error (.generic e))
  | _ => .error (.generic "cannot unmarshal value into Go value of type struct")

/-- Plain struct unmarshal of `ResultMessage`. -/
def resultUnmarshalJSON (data : Json) : Except SDKError ResultMessage :=
  match data with
  | .null => .ok ⟨"", "", 0, 0, false, 0, "", none, none, none⟩
  | .obj fields =>
      (match goFieldString (objGet "type" fields),
             goFieldString (objGet "subtype" fields),
             goFieldInt (objGet "duration_ms" fields),
             goFieldInt (objGet "duration_api_ms" fields),
             goFieldBool (objGet "is_error" fields),
             goFieldInt (objGet "num_turns" fields),
             goFieldString (objGet "session_id" fields) with
       | .ok ty, .ok st, .ok dms, .ok dams, .ok ise, .ok nt, .ok sid =>
           (match goFieldNumPtr (objGet "total_cost_usd" fields),
                  goFieldObj (objGet "usage" fields),
                  goFieldStringPtr (objGet "result" fields) with
            | .ok cost, .ok usage, .ok res =>
                .ok ⟨ty, st, dms, dams, ise, nt, sid, cost, usage, res⟩
            | .error e, _, _ => .error (.generic e)
            | _, .error e, _ => .error (.generic e)
            | _, _, .error e => .error (.generic e))
       | .error e, _, _, _, _, _, _ => .error (.generic e)
       | _, .error e, _, _, _, _, _ => .error (.generic e)
       | _, _, .error e, _, _, _, _ => .error (.generic e)
       | _, _, _, .error e, _, _, _ => .error (.generic e)
       | _, _, _, _, .error e, _, _ => .error (.generic e)
       | _, _, _, _, _, .error e, _ => .error (.generic e)
       | _, _, _, _, _, _, .error e => .error (.generic e))
  | _ => .error (.generic "cannot unmarshal value into Go value of type struct")

/-- Plain struct unmarshal of `StreamEvent`. -/
def streamEventUnmarshalJSON (data : Json) : Except SDKError StreamEvent :=
  match data with
  | .null => .ok ⟨"", "", "", none, none⟩
  | .obj fields =>
      (match goFieldString (objGet "type" fields),
             goFieldString (objGet "uuid" fields),
             goFieldString (objGet "session_id" fields),
             goFieldObj (objGet "event" fields),
             goFieldStringPtr (objGet "parent_tool_use_id" fields) with
       | .ok ty, .ok u, .ok sid, .ok ev, .ok ptui => .ok ⟨ty, u, sid, ev, ptui⟩
       | .error e, _, _, _, _ => .error (.generic e)
       | _, .error e, _, _, _ => .error (.generic e)
       | _, _, .error e, _, _ => .error (.generic e)
       | _, _, _, .error e, _ => .error (.generic e)
       | _, _, _, _, .error e => .error (.generic e))
  | _ => .error (.generic "cannot unmarshal value into Go value of type struct")

/-- Go `UnmarshalMessage` (`types/messages.go`, lines 365-408) on an already
parsed JSON value; `raw` is the original input line, stored in the `Raw`
field of every decode error this function raises. -/
def UnmarshalMessage (raw : String) (data : Json) : Except SDKError Message :=
  match goTypeField data with
  | .error e =>
      .error (NewJSONDecodeErrorWithCause "failed to determine message type" raw (.generic e))
  | .ok ty =>
    match ty with
    | "user" =>
        (match userUnmarshalJSON data with
         | .ok m => .ok (.user m)
         | .error e =>
             .error (NewJSONDecodeErrorWithCause "failed to unmarshal user message" raw e))
    | "assistant" =>
        (match assistantUnmarshalJSON data with
         | .ok m => .ok (.assistant m)
         | .error e =>
             .error (NewJSONDecodeErrorWithCause "failed to unmarshal assistant message" raw e))
    | "system" =>
        (match systemUnmarshalJSON data with
         | .ok m => .ok (.system m)
         | .error e =>
             .error (NewJSONDecodeErrorWithCause "failed to unmarshal system message" raw e))
    | "control_request" =>
        (match systemUnmarshalJSON data with
         | .ok m => .ok (.system m)
         | .error e =>
             .error (NewJSONDecodeErrorWithCause "failed to unmarshal system message" raw e))
    | "control_response" =>
        (match systemUnmarshalJSON data with
         | .ok m => .ok (.system m)
         | .error e =>
             .error (NewJSONDecodeErrorWithCause "failed to unmarshal system message" raw e))
    | "result" =>
        (match resultUnmarshalJSON data with
         | .ok m => .ok (.result m)
         | .error e =>
             .error (NewJSONDecodeErrorWithCause "failed to unmarshal result message" raw e))
    | "stream_event" =>
        (match streamEventUnmarshalJSON data with
         | .ok m => .ok (.streamEvent m)
         | .error e =>
             .error (NewJSONDecodeErrorWithCause "failed to unmarshal stream event" raw e))
    | _ => .error (NewMessageParseErrorWithType "unknown message type" ty)

/-! ### A concrete model of the `encoding/json` parser

`json.Unmarshal` first scans the input as one JSON value (RFC 8259
syntax, no trailing data beyond whitespace).  The scanner below models
it; fuel-indexed recursion keeps every function total, with fuel set to
the input length plus one (each recursive call consumes input). -/

def jsonWs (c : Char) : Bool :=
  c = ' ' ∨ c = '\t' ∨ c = '\n' ∨ c = '\r'

def skipWs (cs : List Char) : List Char :=
  cs.dropWhile jsonWs

def lbrace : Char := Char.ofNat 123
def rbrace : Char := Char.ofNat 125

/-- One escape character following a backslash in a string literal. -/
def unescapeChar (c : Char) : Option Char :=
  if c = '"' then some '"'
  else if c = '\\' then some '\\'
  else if c = '/' then some '/'
  else if c = 'b' then some (Char.ofNat 8)
  else if c = 'f' then some (Char.ofNat 12)
  else if c = 'n' then some '\n'
  else if c = 'r' then some '\r'
  else if c = 't' then some '\t'
  else none

def hexVal (c : Char) : Option Nat :=
  if '0' ≤ c ∧ c ≤ '9' then some (c.toNat - 48)
  else if 'a' ≤ c ∧ c ≤ 'f' then some (c.toNat - 87)
  else if 'A' ≤ c ∧ c ≤ 'F' then some (c.toNat - 70)
  else none

/-- String-literal body scanner: consumes up to and including the
closing quote.  Unescaped control characters are rejected, as in Go. -/
def parseStringBody (fuel : Nat) (cs : List Char) (acc : List Char) :
    Except String (String × List Char) :=
  match fuel with
  | 0 => .error "internal: fuel exhausted"
  | fuel + 1 =>
    match cs with
    | [] => .error "unexpected end of JSON input"
    | c :: rest =>
      if c = '"' then .ok (String.mk acc.reverse, rest)
      else if c = '\\' then
        match rest with
        | [] => .error "unexpected end of JSON input"
        | e :: rest2 =>
          if e = 'u' then
            match rest2 with
            | h1 :: h2 :: h3 :: h4 :: rest3 =>
              (match hexVal h1, hexVal h2, hexVal h3, hexVal h4 with
               | some v1, some v2, some v3, some v4 =>
                   let code := ((v1 * 16 + v2) * 16 + v3) * 16 + v4
                   parseStringBody fuel rest3 (Char.ofNat code :: acc)
               | _, _, _, _ => .error "invalid character in \\u hexadecimal character escape")
            | _ => .error "unexpected end of JSON input"
          else
            match unescapeChar e with
            | some u => parseStringBody fuel rest2 (u :: acc)
            | none => .error "invalid character in string escape code"
      else if c.toNat < 32 then .error "invalid character in string literal"
      else parseStringBody fuel rest (c :: acc)

/-- Number lexeme scanner (RFC 8259 number grammar, as in Go). -/
def parseNumberLex (cs : List Char) : Except String (String × List Char) :=
  let (sign, cs1) : String × List Char :=
    match cs with
    | '-' :: r => ("-", r)
    | _ => ("", cs)
  match cs1 with
  | c :: rest =>
    if c = '0' then
      let afterInt := rest
      let intPart := "0"
      let (fracPart, afterFrac) : String × List Char :=
        match afterInt with
        | '.' :: r =>
          let ds := r.takeWhile Char.isDigit
          if ds.isEmpty then ("", afterInt) else ("." ++ String.mk ds, r.dropWhile Char.isDigit)
        | _ => ("", afterInt)
      let (expPart, afterExp) : String × List Char :=
        match afterFrac with
        | e :: r =>
          if e = 'e' ∨ e = 'E' then
            let (es, r2) : String × List Char :=
              match r with
              | s :: r3 => if s = '+' ∨ s = '-' then (String.singleton s, r3) else ("", r)
              | [] => ("", r)
            let ds := r2.takeWhile Char.isDigit
            if ds.isEmpty then ("", afterFrac)
            else (String.singleton e ++ es ++ String.mk ds, r2.dropWhile Char.isDigit)
          else ("", afterFrac)
        | [] => ("", afterFrac)
      if (match afterInt with | '.' :: r => (r.takeWhile Char.isDigit).isEmpty | _ => false) then
        .error "invalid number literal"
      else .ok (sign ++ intPart ++ fracPart ++ expPart, afterExp)
    else if c.isDigit then
      let intDigits := (c :: rest).takeWhile Char.isDigit
      let afterInt := (c :: rest).dropWhile Char.isDigit
      let intPart := String.mk intDigits
      let (fracPart, afterFrac) : String × List Char :=
        match afterInt with
        | '.' :: r =>
          let ds := r.takeWhile Char.isDigit
          if ds.isEmpty then ("", afterInt) else ("." ++ String.mk ds, r.dropWhile Char.isDigit)
        | _ => ("", afterInt)
      let (expPart, afterExp) : String × List Char :=
        match afterFrac with
        | e :: r =>
          if e = 'e' ∨ e = 'E' then
            let (es, r2) : String × List Char :=
              match r with
              | s :: r3 => if s = '+' ∨ s = '-' then (String.singleton s, r3) else ("", r)
              | [] => ("", r)
            let ds := r2.takeWhile Char.isDigit
            if ds.isEmpty then ("", afterFrac)
            else (String.singleton e ++ es ++ String.mk ds, r2.dropWhile Char.isDigit)
          else ("", afterFrac)
        | [] => ("", afterFrac)
      if (match afterInt with | '.' :: r => (r.takeWhile Char.isDigit).isEmpty | _ => false) then
        .error "invalid number literal"
      else .ok (sign ++ intPart ++ fracPart ++ expPart, afterExp)
    else .error "invalid character looking for beginning of value"
  | [] => .error "unexpected end of JSON input"

mutual
/-- One JSON value, leading whitespace allowed. -/
def parseValue (fuel : Nat) (cs : List Char) : Except String (Json × List Char) :=
  match fuel with
  | 0 => .error "internal: fuel exhausted"
  | fuel + 1 =>
    match skipWs cs with
    | [] => .error "unexpected end of JSON input"
    | c :: rest =>
      if c = 'n' then
        match rest with
        | 'u' :: 'l' :: 'l' :: r => .ok (.null, r)
        | _ => .error "invalid character looking for beginning of value"
      else if c = 't' then
        match rest with
        | 'r' :: 'u' :: 'e' :: r => .ok (.bool true, r)
        | _ => .error "invalid character looking for beginning of value"
      else if c = 'f' then
        match rest with
        | 'a' :: 'l' :: 's' :: 'e' :: r => .ok (.bool false, r)
        | _ => .error "invalid character looking for beginning of value"
      else if c = '"' then
        match parseStringBody (rest.length + 1) rest [] with
        | .ok (s, r) => .ok (.str s, r)
        | .error e => .error e
      else if c = '[' then
        match skipWs rest with
        | ']' :: r => .ok (.arr [], r)
        | _ =>
          match parseArrayElems fuel rest with
          | .ok (xs, r) => .ok (.arr xs, r)
          | .error e => .error e
      else if c = lbrace then
        match skipWs rest with
        | c2 :: r =>
          if c2 = rbrace then .ok (.obj [], r)
          else
            match parseObjFields fuel rest with
            | .ok (fs, r2) => .ok (.obj fs, r2)
            | .error e => .error e
        | [] => .error "unexpected end of JSON input"
      else
        match parseNumberLex (c :: rest) with
        | .ok (lex, r) => .ok (.num lex, r)
        | .error e => .error e

/-- Comma-separated array elements up to and including the closing
bracket; called with at least one element present. -/
def parseArrayElems (fuel : Nat) (cs : List Char) : Except String (List Json × List Char) :=
  match fuel with
  | 0 => .error "internal: fuel exhausted"
  | fuel + 1 =>
    match parseValue fuel cs with
    | .error e => .error e
    | .ok (v, r) =>
      match skipWs r with
      | ',' :: r2 =>
        (match parseArrayElems fuel r2 with
         | .ok (xs, r3) => .ok (v :: xs, r3)
         | .error e => .error e)
      | ']' :: r2 => .ok ([v], r2)
      | _ => .error "invalid character after array element"

/-- Comma-separated object members up to and including the closing
brace; called with at least one member present. -/
def parseObjFields (fuel : Nat) (cs : List Char) : Except String (List (String × Json) × List Char) :=
  match fuel with
  | 0 => .error "internal: fuel exhausted"
  | fuel + 1 =>
    match skipWs cs with
    | '"' :: rest =>
      (match parseStringBody (rest.length + 1) rest [] with
       | .error e => .error e
       | .ok (k, r) =>
         match skipWs r with
         | ':' :: r2 =>
           (match parseValue fuel r2 with
            | .error e => .error e
            | .ok (v, r3) =>
              match skipWs r3 with
              | ',' :: r4 =>
                (match parseObjFields fuel r4 with
                 | .ok (fs, r5) => .ok ((k, v) :: fs, r5)
                 | .error e => .error e)
              | c :: r4 =>
                if c = rbrace then .ok ([(k, v)], r4)
                else .error "invalid character after object key:value pair"
              | [] => .error "unexpected end of JSON input"
           )
         | _ => .error "invalid character after object key")
    | _ => .error "invalid character looking for beginning of object key string"
end

/-- The `json.Unmarshal` scan of a whole input: one value, then only
whitespace may remain. -/
def goParseJson (s : String) : Except String Json :=
  match parseValue (s.length + 1) s.toList with
  | .error e => .error e
  | .ok (v, rest) =>
    match skipWs rest with
    | [] => .ok v
    | _ => .error "invalid character after top-level value"

/-- The full decoding pipeline for one line from the child process:
the `json.Unmarshal` scan followed by the `UnmarshalMessage` dispatch.  A
scan failure is the `typeCheck` decode error of `UnmarshalMessage`
(`types/messages.go`, lines 366-371). -/
def unmarshalMessageLine (s : String) : Except SDKError Message :=
  match goParseJson s with
  | .error e =>
      .error (NewJSONDecodeErrorWithCause "failed to determine message type" s (.generic e))
  | .ok j => UnmarshalMessage s j

/-- Go `errors.As`-style matching for `MessageParseError`
(`types.IsMessageParseError`): true when the error or any wrapped cause
is a `MessageParseError`. -/
def isMessageParseError : SDKError → Bool
  | .messageParse _ _ _ => true
  | .cliNotFound _ (some c) => isMessageParseError c
  | .cliConnection _ (some c) => isMessageParseError c
  | .processErr _ _ (some c) => isMessageParseError c
  | .jsonDecode _ _ (some c) => isMessageParseError c
  | .controlProtocol _ (some c) => isMessageParseError c
  | .permissionDenied _ _ _ (some c) => isMessageParseError c
  | .sessionNotFound _ _ (some c) => isMessageParseError c
  | _ => false

/-! ### Line Transport (`internal/transport`, `SubprocessCLITransport`)

The mutex-guarded mutable state of a transport is a structure; each Go
method becomes a transition function, taking the result of any external
I/O it performs as an explicit argument. -/

structure SubprocessCLITransport where
  /-- Go `t.cmd != nil`: the subprocess command has been created. -/
  cmdSet : Bool
  /-- Go `t.ready`. -/
  ready : Bool
  /-- Go `t.err`: the sticky error field. -/
  err : Option SDKError
  /-- Go `t.writer != nil`. -/
  writerSet : Bool

namespace SubprocessCLITransport

/-- Go `OnError` (`internal/transport/subprocess.go`): store the error only
if none is stored yet. -/
def OnError (t : SubprocessCLITransport) (e : SDKError) : SubprocessCLITransport :=
  match t.err with
  | none => { t with err := some e }
  | some _ => t

/-- Go `GetError`. -/
def GetError (t : SubprocessCLITransport) : Option SDKError := t.err

/-- Go `IsReady`. -/
def IsReady (t : SubprocessCLITransport) : Bool := t.ready

/-- Go `Write`: guard on readiness and the writer, then perform the line
write; `writeRes` is the I/O result of `writer.WriteLine` (`none` means
success).  On an I/O failure readiness flips to false and the
write connection error is stored into `t.err` unconditionally. -/
def Write (t : SubprocessCLITransport) (writeRes : Option SDKError) :
    SubprocessCLITransport × Except SDKError Unit :=
  if ¬t.ready then
    (t, .error (NewCLIConnectionError "transport is not ready for writing"))
  else if ¬t.writerSet then
    (t, .error (NewCLIConnectionError "stdin writer not initialized"))
  else
    match writeRes with
    | none => (t, .ok ())
    | some cause =>
        let e := NewCLIConnectionErrorWithCause "failed to write to subprocess stdin" cause
        ({ t with ready := false, err := some e }, .error e)

/-- Go `Connect`: a no-op when the command is already created; otherwise
create the command (setting `t.cmd` before any pipe or start step) and
run the spawn sequence, whose combined result is `spawn`. -/
def Connect (t : SubprocessCLITransport) (spawn : Except SDKError Unit) :
    SubprocessCLITransport × Except SDKError Unit :=
  if t.cmdSet then (t, .ok ())
  else
    match spawn with
    | .error e => ({ t with cmdSet := true }, .error e)
    | .ok _ => ({ t with cmdSet := true, writerSet := true, ready := true }, .ok ())

/-- Go `Close`: a no-op when not connected; otherwise flip readiness off,
cancel the reader context, close stdin, and wait for the process —
`waitOutcome` is what the bounded wait produced. -/
def Close (t : SubprocessCLITransport) (waitOutcome : Except SDKError Unit) :
    SubprocessCLITransport × Except SDKError Unit :=
  if ¬t.cmdSet then (t, .ok ())
  else ({ t with ready := false }, waitOutcome)

end SubprocessCLITransport

/-! ### Diagnostic-stream error extractor (`internal/transport`) -/

/-- Go `isWhitespace`. -/
def isWhitespace (c : Char) : Bool :=
  c = ' ' ∨ c = '\t' ∨ c = '\n' ∨ c = '\r'

/-- Go `findSubstring`: index of the first occurrence of `substr` in `s`,
scanning left to right (the Go loop compares `s[i:i+len(substr)]` for
each `i`; comparing `substr` against each suffix is the same test). -/
def findSubstringAux (s substr : List Char) (i : Nat) : Option Nat :=
  if substr.isPrefixOf s then some i
  else
    match s with
    | [] => none
    | _ :: t => findSubstringAux t substr (i + 1)

def findSubstring (s substr : String) : Option Nat :=
  findSubstringAux s.toList substr.toList 0

/-- Go `trimWhitespace`: strip leading and trailing whitespace. -/
def trimWhitespace (s : List Char) : List Char :=
  ((s.dropWhile isWhitespace).reverse.dropWhile isWhitespace).reverse

/-- Go `extractSessionNotFoundError` (`internal/transport`): look for the
fixed pattern, then take the first whitespace-delimited token after it. -/
def extractSessionNotFoundError (stderrText : String) : Bool × String :=
  let pattern := "No conversation found with session ID:"
  match findSubstring stderrText pattern with
  | some idx =>
    let sessionIDStart := idx + pattern.length
    if sessionIDStart < stderrText.length then
      let remaining := stderrText.toList.drop sessionIDStart
      let sessionID := trimWhitespace remaining
      if sessionID.length > 0 then
        (true, String.mk (sessionID.takeWhile (fun c => ¬isWhitespace c)))
      else (false, "")
    else (false, "")
  | none => (false, "")

/-- Go `parseStderrError`: on a match, build the typed `SessionNotFoundError`
and store it through `OnError`. -/
def parseStderrError (t : SubprocessCLITransport) (stderrText : String) :
    SubprocessCLITransport :=
  match extractSessionNotFoundError stderrText with
  | (true, sessionID) =>
      t.OnError (NewSessionNotFoundError sessionID
        "Claude CLI could not find this conversation. It may have been deleted or the CLI was reinstalled.")
  | _ => t

/-! ### Control Router (`internal/query.go`, type `Query`)

Callbacks and MCP handlers are modelled as Lean functions (their
`context.Context` argument is dropped; the effect of a callback is its
result).  The single-slot response channel created per control request
is identified by its request ID; delivery into the slot is the
`Option (String × ResponseResult)` component of the result of a transition. -/

/-- Go `types.MCPServer`: only `HandleMessage` is used by the router. -/
abbrev MCPServer := JsonObj → Except SDKError JsonObj

/-- The result of a `types.CanUseToolFunc` callback.  The Go callback
returns `interface\x7b\x7d`; the type switch of the router recognises
`PermissionResultAllow` and `PermissionResultDeny` (by value or by
pointer — both switch arms build identical responses and are collapsed
here) and rejects anything else. -/
inductive PermissionResult where
  | allow (updatedInput : Option JsonObj) (updatedPermissions : List JsonObj)
  | deny (message : String) (interrupt : Bool)
  | invalidType

/-- Go `types.CanUseToolFunc`: tool name, input parameters, and the parsed
permission-update suggestions from the `ToolPermissionContext`. -/
abbrev CanUseToolFunc := String → JsonObj → List JsonObj → Except SDKError PermissionResult

/-- Go `types.HookCallbackFunc`: hook input and optional tool-use ID. -/
abbrev HookCallbackFunc := Option Json → Option String → Except SDKError Json

/-- Go `responseResult`: what a control-request waiter receives. -/
inductive ResponseResult where
  | success (response : Option JsonObj)
  | failure (err : SDKError)

/-- The mutex-guarded state of a `Query`. -/
structure QueryState where
  requestMap : List (String × Unit)
  nextRequestID : Int
  hookCallbacks : List (String × HookCallbackFunc)
  canUseTool : Option CanUseToolFunc
  mcpServers : List (String × MCPServer)
  isStreamingMode : Bool

/-- Go type assertion `m[k].(string)` on a decoded object: the zero
string on a missing key or a non-string value. -/
def strAssert (m : JsonObj) (k : String) : String :=
  match objGet k m with
  | some (.str s) => s
  | _ => ""

/-- Go type assertion `m[k].(map[string]interface\x7b\x7d)` (`nil` on failure). -/
def objAssert (m : JsonObj) (k : String) : Option JsonObj :=
  match objGet k m with
  | some (.obj o) => some o
  | _ => none

/-- Go type assertion `m[k].([]interface\x7b\x7d)` (`nil` on failure). -/
def arrAssert (m : JsonObj) (k : String) : List Json :=
  match objGet k m with
  | some (.arr xs) => xs
  | _ => []

/-- Go type assertion on a possibly-`nil` map (`msg.Data["request_id"]`
when `Data` is `nil` yields the zero value). -/
def strAssertOpt (m : Option JsonObj) (k : String) : String :=
  match m with
  | some o => strAssert o k
  | none => ""

/-- Go `handleControlResponse` (`internal/query.go`): resolve a pending
request by the `request_id` found in the `response` payload of the envelope.
The result is (new state, delivery into the matched slot, returned
error). -/
def handleControlResponse (q : QueryState) (msg : SystemMessage) :
    QueryState × Option (String × ResponseResult) × Option SDKError :=
  match msg.response with
  | none =>
      (q, none, some (NewControlProtocolError "invalid control response format: response field is nil"))
  | some responseData =>
    match objGet "request_id" responseData with
    | some (.str requestID) =>
      (match mapFind requestID q.requestMap with
       | none => (q, none, none)
       | some _ =>
         let q' := { q with requestMap := mapErase requestID q.requestMap }
         let subtype := strAssert responseData "subtype"
         if subtype = "error" then
           let errMsg0 := strAssert responseData "error"
           let errMsg := if errMsg0 = "" then "unknown control protocol error" else errMsg0
           (q', some (requestID, .failure (NewControlProtocolError errMsg)), none)
         else
           (q', some (requestID, .success (objAssert responseData "response")), none))
    | _ =>
        (q, none, some (NewControlProtocolError "missing request_id in control response"))

/-- Go `handlePermissionRequest` (`internal/query.go`): parse the request,
invoke the permission callback, and shape its result into the response
payload.  A suggestion that is a JSON object is accepted as a
`PermissionUpdate` (the Go code re-marshals it into the struct; the
update itself is never inspected by the router). -/
def handlePermissionRequest (q : QueryState) (requestData : JsonObj) :
    Except SDKError JsonObj :=
  match q.canUseTool with
  | none => .error (NewControlProtocolError "canUseTool callback is not provided")
  | some canUseTool =>
    let toolName := strAssert requestData "tool_name"
    let input := objAssert requestData "input"
    let suggestions := arrAssert requestData "permission_suggestions"
    match input with
    | none => .error (NewControlProtocolError "missing tool_name or input in permission request")
    | some inp =>
      if toolName = "" then
        .error (NewControlProtocolError "missing tool_name or input in permission request")
      else
        let permissionUpdates := suggestions.filterMap (fun s =>
          match s with
          | .obj o => some o
          | _ => none)
        match canUseTool toolName inp permissionUpdates with
        | .error e => .error e
        | .ok (.allow updatedInput updatedPermissions) =>
            let response := mapInsert "behavior" (Json.str "allow") []
            let response := mapInsert "updatedInput" (Json.obj (updatedInput.getD inp)) response
            let response :=
              if updatedPermissions.length > 0 then
                mapInsert "updatedPermissions" (Json.arr (updatedPermissions.map Json.obj)) response
              else response
            .ok response
        | .ok (.deny message interrupt) =>
            let response := mapInsert "behavior" (Json.str "deny") []
            let response :=
              if message ≠ "" then mapInsert "message" (Json.str message) response else response
            let response :=
              if interrupt then mapInsert "interrupt" (Json.bool interrupt) response else response
            .ok response
        | .ok .invalidType =>
            .error (NewControlProtocolError "permission callback returned invalid type")

/-- Go `handleHookCallback` (`internal/query.go`).  The Go code asserts
`requestData["tool_use_id"].(*string)`, which always fails for a value
decoded from JSON, so the callback always receives a `nil` tool-use ID. -/
def handleHookCallback (q : QueryState) (requestData : JsonObj) :
    Except SDKError JsonObj :=
  let callbackID := strAssert requestData "callback_id"
  let input := goFieldAny (objGet "input" requestData)
  if callbackID = "" then
    .error (NewControlProtocolError "missing callback_id in hook callback request")
  else
    match mapFind callbackID q.hookCallbacks with
    | none => .error (NewControlProtocolError ("no hook callback found for ID: " ++ callbackID))
    | some callback =>
      match callback input none with
      | .error e => .error e
      | .ok hookOutput =>
        match hookOutput with
        | .obj o => .ok o
        | _ => .error (NewControlProtocolError "hook callback must return map[string]interface\x7b\x7d")

/-- Go `handleMCPMessage` (`internal/query.go`): route to the registered
server, or encode the failure one layer down as a JSON-RPC error. -/
def handleMCPMessage (q : QueryState) (requestData : JsonObj) :
    Except SDKError JsonObj :=
  let serverName := strAssert requestData "server_name"
  let message := objAssert requestData "message"
  match message with
  | none => .error (NewControlProtocolError "missing server_name or message in MCP request")
  | some m =>
    if serverName = "" then
      .error (NewControlProtocolError "missing server_name or message in MCP request")
    else
      match mapFind serverName q.mcpServers with
      | none =>
          let messageID := (objGet "id" m).getD Json.null
          .ok [("mcp_response", Json.obj [
            ("jsonrpc", Json.str "2.0"),
            ("id", messageID),
            ("error", Json.obj [
              ("code", Json.num "-32601"),
              ("message", Json.str ("Server \x27" ++ serverName ++ "\x27 not found"))])])]
      | some server =>
        match server m with
        | .error e =>
            let messageID := (objGet "id" m).getD Json.null
            .ok [("mcp_response", Json.obj [
              ("jsonrpc", Json.str "2.0"),
              ("id", messageID),
              ("error", Json.obj [
                ("code", Json.num "-32603"),
                ("message", Json.str e.render)])])]
        | .ok mcpResponse =>
            .ok [("mcp_response", Json.obj mcpResponse)]

/-- Go `sendSuccessResponse`: the outbound `control_response` envelope. -/
def sendSuccessResponse (requestID : String) (response : JsonObj) : JsonObj :=
  [("type", Json.str "control_response"),
   ("response", Json.obj [
     ("subtype", Json.str "success"),
     ("request_id", Json.str requestID),
     ("response", Json.obj response)])]

/-- Go `sendErrorResponse`: the outbound error `control_response` envelope. -/
def sendErrorResponse (requestID : String) (errorMsg : String) : JsonObj :=
  [("type", Json.str "control_response"),
   ("response", Json.obj [
     ("subtype", Json.str "error"),
     ("request_id", Json.str requestID),
     ("error", Json.str errorMsg)])]

/-- Go `handleControlRequest` (`internal/query.go`): extract the request ID
and payload, dispatch on the subtype, and wrap the handler output into
the control-response envelope written back through the transport. -/
def handleControlRequest (q : QueryState) (msg : SystemMessage) : JsonObj :=
  let requestID0 := strAssertOpt msg.data "request_id"
  let requestID :=
    if requestID0 = "" then strAssertOpt msg.request "request_id" else requestID0
  let requestData : Option JsonObj :=
    match msg.request with
    | some r => some r
    | none =>
      match msg.data with
      | some d => objAssert d "request"
      | none => none
  match requestData with
  | none => sendErrorResponse requestID "invalid control request format"
  | some rd =>
    if requestID = "" then sendErrorResponse requestID "invalid control request format"
    else
      let subtype := strAssert rd "subtype"
      let dispatched : Except SDKError JsonObj :=
        match subtype with
        | "can_use_tool" => handlePermissionRequest q rd
        | "hook_callback" => handleHookCallback q rd
        | "mcp_message" => handleMCPMessage q rd
        | "interrupt" => .ok []
        | "set_permission_mode" => .ok []
        | _ => .error (NewControlProtocolError ("unsupported control request subtype: " ++ subtype))
      match dispatched with
      | .error e => sendErrorResponse requestID e.render
      | .ok response => sendSuccessResponse requestID response

/-! ### Request-ID generation and `sendControlRequest` -/

/-- Decimal digits of a natural number, most significant first (the
digit string produced by `fmt.Sprintf("%d", ·)`); fuel-indexed so the
definition is structurally recursive — `natDigits` supplies `n + 1`
fuel, always sufficient since each step divides `n` by ten. -/
def natDigitsGo : Nat → Nat → List Char → List Char
  | 0, _, acc => acc
  | fuel + 1, n, acc =>
    if n < 10 then Char.ofNat (48 + n) :: acc
    else natDigitsGo fuel (n / 10) (Char.ofNat (48 + n % 10) :: acc)

def natDigits (n : Nat) : List Char := natDigitsGo (n + 1) n []

def natRepr (n : Nat) : String := String.mk (natDigits n)

/-- Go `fmt.Sprintf("%d", i)` for a signed integer. -/
def intRepr (i : Int) : String :=
  if i < 0 then "-" ++ natRepr (-i).toNat else natRepr i.toNat

/-- Wrap-around (two-complement) of `int64` arithmetic, as performed by
`atomic.AddInt64`. -/
def wrapInt64 (x : Int) : Int := (x + 2 ^ 63) % 2 ^ 64 - 2 ^ 63

/-- Go `generateRequestID` (`internal/query.go`):
`id := atomic.AddInt64(&q.nextRequestID, 1)` then `"req_%d"`. -/
def generateRequestID (nextRequestID : Int) : Int × String :=
  let id := wrapInt64 (nextRequestID + 1)
  (id, "req_" ++ intRepr id)

/-- How a `sendControlRequest` call that reached the wait resolves:
either its response slot is filled (by `handleControlResponse`, which
removed the pending entry on the router side before delivering), or the
caller context is cancelled first, `ctxErr` being `ctx.Err()`. -/
inductive AwaitOutcome where
  | response (r : ResponseResult)
  | ctxDone (ctxErr : SDKError)

/-- Go `sendControlRequest` (`internal/query.go`): generate an ID, register
the single-slot channel under it, write the envelope, then wait.  Only
only the own effects of this call; the effects on the pending table appear in the resulting
state (a concurrent `handleControlResponse` owns the removal on the
response path). -/
def sendControlRequest (q : QueryState) (t : SubprocessCLITransport)
    (request : JsonObj) (writeRes : Option SDKError) (outcome : AwaitOutcome) :
    QueryState × SubprocessCLITransport × Except SDKError (Option JsonObj) :=
  if ¬q.isStreamingMode then
    (q, t, .error (NewControlProtocolError "control requests require streaming mode"))
  else
    let (c, requestID) := generateRequestID q.nextRequestID
    let q1 := { q with nextRequestID := c,
                       requestMap := mapInsert requestID () q.requestMap }
    match t.Write writeRes with
    | (t', .error e) =>
        ({ q1 with requestMap := mapErase requestID q1.requestMap }, t',
         .error (NewControlProtocolErrorWithCause "failed to send control request" e))
    | (t', .ok _) =>
      match outcome with
      | .response (.failure e) => (q1, t', .error e)
      | .response (.success r) => (q1, t', .ok r)
      | .ctxDone ctxErr =>
          ({ q1 with requestMap := mapErase requestID q1.requestMap }, t',
           .error ctxErr)

/-! ### Message routing (`routeMessage` / `messageLoop`) -/

/-- The effects of routing one inbound message. -/
structure RouteResult where
  state : QueryState
  /-- The message forwarded to the consumer channel, if any. -/
  forwarded : Option Message
  /-- A `control_request` handed to an asynchronous handler task. -/
  dispatched : Option SystemMessage
  /-- A delivery into the response slot of a pending request. -/
  delivered : Option (String × ResponseResult)
  /-- The error returned by `routeMessage` (logged as a warning). -/
  err : Option SDKError

/-- Go `routeMessage` (`internal/query.go`): classify on
`GetMessageType()`; control responses are resolved, control requests are
dispatched asynchronously, everything else goes to the consumer. -/
def routeMessage (q : QueryState) (msg : Message) : RouteResult :=
  let msgType := msg.getMessageType
  if msgType = "control_response" then
    match msg with
    | .system sysMsg =>
        let (q', delivered, err) := handleControlResponse q sysMsg
        ⟨q', none, none, delivered, err⟩
    | _ => ⟨q, none, none, none, some (NewControlProtocolError "invalid control_response message type")⟩
  else if msgType = "control_request" then
    match msg with
    | .system sysMsg => ⟨q, none, some sysMsg, none, none⟩
    | _ => ⟨q, none, none, none, some (NewControlProtocolError "invalid control_request message type")⟩
  else ⟨q, some msg, none, none, none⟩

/-- Go `messageLoop` (`internal/query.go`) over a finite inbound sequence:
route each message in order, collecting the consumer-facing stream; a
routing error is logged and the loop continues. -/
def messageLoop (q : QueryState) : List Message → QueryState × List Message
  | [] => (q, [])
  | msg :: rest =>
    let r := routeMessage q msg
    let next := messageLoop r.state rest
    (next.1, (match r.forwarded with
              | some m => [m]
              | none => []) ++ next.2)

/-! ### Session Client (`client.go`) -/

/-- Go `NewQuery` with no hooks, mirroring the state the Session Client
creates at `Connect` time (hook matchers and MCP servers are supplied by
options; the lifecycle claims do not depend on them). -/
def NewQuery (canUseTool : Option CanUseToolFunc) (isStreamingMode : Bool) : QueryState :=
  { requestMap := []
    nextRequestID := 0
    hookCallbacks := []
    canUseTool := canUseTool
    mcpServers := []
    isStreamingMode := isStreamingMode }

/-- Go `Query.Initialize` (`internal/query.go`): in streaming mode, send
the `initialize` control request (no hooks registered here) and wrap a
failure as "initialization failed". -/
def queryInitialize (q : QueryState) (t : SubprocessCLITransport)
    (writeRes : Option SDKError) (outcome : AwaitOutcome) :
    QueryState × SubprocessCLITransport × Except SDKError (Option JsonObj) :=
  if ¬q.isStreamingMode then (q, t, .ok none)
  else
    let request : JsonObj := [("subtype", Json.str "initialize")]
    match sendControlRequest q t request writeRes outcome with
    | (q', t', .error e) =>
        (q', t', .error (NewControlProtocolErrorWithCause "initialization failed" e))
    | (q', t', .ok result) => (q', t', .ok result)

/-- The mutex-guarded state of a `Client` (`client.go`).  `ctxCancelled`
models the client-lifecycle context, cancelled by `Close`. -/
structure Client where
  connected : Bool
  transport : SubprocessCLITransport
  query : Option QueryState
  canUseTool : Option CanUseToolFunc
  ctxCancelled : Bool

/-- Go `NewClient`: a fresh, unconnected client over a fresh transport. -/
def NewClient (canUseTool : Option CanUseToolFunc) : Client :=
  { connected := false
    transport := { cmdSet := false, ready := false, err := none, writerSet := false }
    query := none
    canUseTool := canUseTool
    ctxCancelled := false }

/-- The external events consumed by one `Client.Connect` call. -/
structure ConnectEnv where
  /-- Result of the transport spawn sequence. -/
  spawn : Except SDKError Unit
  /-- I/O result of writing the `initialize` control request. -/
  initWriteRes : Option SDKError
  /-- How the `initialize` wait resolves. -/
  initOutcome : AwaitOutcome
  /-- Go `Wait` outcome for any cleanup `transport.Close` performed on a
  failing path. -/
  cleanupWait : Except SDKError Unit
  /-- Go `ctx.Err()` of the caller-supplied context at the fast-fail
  check (`client.go`, line 201): `none` for a live caller context.  Note
  the select observes the internal client context but returns the error
  of the caller context. -/
  callerCtxErr : Option SDKError

/-- Go `Client.Connect` (`client.go`, lines 179-235): refuse when already
connected; connect the transport; when the internal client context is
already cancelled, close the transport and return `ctx.Err()` of the
CALLER context — `nil`, i.e. no error, when the caller context is live —
without connecting; otherwise fail fast on a sticky transport error;
create and start the streaming query; run the `initialize` handshake;
only then flip to connected. -/
def clientConnect (c : Client) (env : ConnectEnv) : Client × Except SDKError Unit :=
  if c.connected then
    (c, .error (NewControlProtocolError "client already connected"))
  else
    match c.transport.Connect env.spawn with
    | (t1, .error e) =>
        ({ c with transport := t1 },
         .error (NewCLIConnectionErrorWithCause "failed to connect to Claude CLI" e))
    | (t1, .ok _) =>
      if c.ctxCancelled then
        let (t2, _) := t1.Close env.cleanupWait
        ({ c with transport := t2 },
         match env.callerCtxErr with
         | some e => .error e
         | none => .ok ())
      else
        match t1.GetError with
        | some e =>
            let (t2, _) := t1.Close env.cleanupWait
            ({ c with transport := t2 }, .error e)
        | none =>
          let q := NewQuery c.canUseTool true
          match queryInitialize q t1 env.initWriteRes env.initOutcome with
          | (_, t2, .error e) =>
              let (t3, _) := t2.Close env.cleanupWait
              ({ c with transport := t3 },
               .error (NewControlProtocolErrorWithCause "failed to initialize control protocol" e))
          | (q', t2, .ok _) =>
              ({ c with connected := true, transport := t2, query := some q' }, .ok ())

/-- Go `Client.Query` (`client.go`, lines 264-299): refuse when not
connected, validate the prompt, then write the user envelope. -/
def clientQuery (c : Client) (prompt : String) (writeRes : Option SDKError) :
    Client × Except SDKError Unit :=
  if ¬c.connected then
    (c, .error (NewCLIConnectionError "not connected - call Connect() first"))
  else if prompt = "" then
    (c, .error (.generic "prompt cannot be empty"))
  else
    match c.transport.Write writeRes with
    | (t', .error e) => ({ c with transport := t' }, .error e)
    | (t', .ok _) => ({ c with transport := t' }, .ok ())

/-- Go `Client.QueryWithContent` (`client.go`): identical to `Query` with a
structured content value (`nil` content refused). -/
def clientQueryWithContent (c : Client) (content : Option Json) (writeRes : Option SDKError) :
    Client × Except SDKError Unit :=
  if ¬c.connected then
    (c, .error (NewCLIConnectionError "not connected - call Connect() first"))
  else
    match content with
    | none => (c, .error (.generic "content cannot be nil"))
    | some _ =>
      match c.transport.Write writeRes with
      | (t', .error e) => ({ c with transport := t' }, .error e)
      | (t', .ok _) => ({ c with transport := t' }, .ok ())

/-- Go `Client.Close` (`client.go`, lines 456-500): a no-op when not
connected; otherwise stop the query handler, close the transport, cancel
the client context, mark disconnected, and return the first error. -/
def clientClose (c : Client) (waitOutcome : Except SDKError Unit) :
    Client × Except SDKError Unit :=
  if ¬c.connected then (c, .ok ())
  else
    let (t', closeResult) := c.transport.Close waitOutcome
    let c' := { c with connected := false, query := none, transport := t', ctxCancelled := true }
    match closeResult with
    | .error e => (c', .error e)
    | .ok _ => (c', .ok ())

/-! ## Theorems -/

/-- In every branch, `routeMessage` forwards the message to the consumer
exactly when its type is neither control envelope. -/
theorem routeMessage_forwarded (q : QueryState) (msg : Message) :
    (routeMessage q msg).forwarded =
      if msg.getMessageType = "control_response" ∨ msg.getMessageType = "control_request"
      then none else some msg := by
  cases msg with
  | system m =>
      by_cases h1 : (Message.system m).getMessageType = "control_response"
      · rcases hres : handleControlResponse q m with ⟨q', d, e⟩
        simp [routeMessage, h1, hres]
      · by_cases h2 : (Message.system m).getMessageType = "control_request" <;>
          simp [routeMessage, h1, h2]
  | user m =>
      by_cases h1 : (Message.user m).getMessageType = "control_response"
      · simp [routeMessage, h1]
      · by_cases h2 : (Message.user m).getMessageType = "control_request" <;>
          simp [routeMessage, h1, h2]
  | assistant m =>
      by_cases h1 : (Message.assistant m).getMessageType = "control_response"
      · simp [routeMessage, h1]
      · by_cases h2 : (Message.assistant m).getMessageType = "control_request" <;>
          simp [routeMessage, h1, h2]
  | result m =>
      by_cases h1 : (Message.result m).getMessageType = "control_response"
      · simp [routeMessage, h1]
      · by_cases h2 : (Message.result m).getMessageType = "control_request" <;>
          simp [routeMessage, h1, h2]
  | streamEvent m =>
      by_cases h1 : (Message.streamEvent m).getMessageType = "control_response"
      · simp [routeMessage, h1]
      · by_cases h2 : (Message.streamEvent m).getMessageType = "control_request" <;>
          simp [routeMessage, h1, h2]

/-- C4: For every sequence of messages read from the transport, messages
whose type is `control_request` or `control_response` are never
delivered on the consumer-facing message channel, and every other
message is forwarded to the consumer channel unmodified, in the order
the transport emitted it: the consumer stream is exactly the
order-preserving filter of the inbound stream. -/
theorem consumer_stream_is_control_free_filter (q : QueryState) (msgs : List Message) :
    (messageLoop q msgs).2 =
      msgs.filter (fun m =>
        ¬(m.getMessageType = "control_response" ∨ m.getMessageType = "control_request")) := by
  induction msgs generalizing q with
  | nil => rfl
  | cons msg rest ih =>
    rw [messageLoop]
    rw [List.filter_cons]
    by_cases h : msg.getMessageType = "control_response" ∨ msg.getMessageType = "control_request"
    · simp only [routeMessage_forwarded, if_pos h, ih]
      simp [h]
    · simp only [routeMessage_forwarded, if_neg h, ih]
      simp [h]

/-- C9: the diagnostic-stream extractor on the two scenario inputs: the
session-not-found line yields exactly the session ID, the unrelated
connection-failure line yields nothing, and `parseStderrError` stores
the typed `SessionNotFoundError` on the transport. -/
theorem extractSessionNotFound_scenarios :
    extractSessionNotFoundError
        "No conversation found with session ID: 8587b432-e504-42c8-b9a7-e3fd0b4b2c60"
      = (true, "8587b432-e504-42c8-b9a7-e3fd0b4b2c60") ∧
    extractSessionNotFoundError "Connection failed: timeout" = (false, "") ∧
    (parseStderrError { cmdSet := true, ready := true, err := none, writerSet := true }
        "No conversation found with session ID: 8587b432-e504-42c8-b9a7-e3fd0b4b2c60").err
      = some (NewSessionNotFoundError "8587b432-e504-42c8-b9a7-e3fd0b4b2c60"
          "Claude CLI could not find this conversation. It may have been deleted or the CLI was reinstalled.") ∧
    (parseStderrError { cmdSet := true, ready := true, err := none, writerSet := true }
        "Connection failed: timeout").err = none := by
  exact ⟨by decide, by decide, rfl, rfl⟩

/-- C2: control responses are resolved by the `request_id` found in the
`response` payload of the envelope, independently of the other fields of
the outer message; a matched entry is removed (leaving every other pending
entry in place) and its waiter receives a control-protocol error for
`subtype = "error"` and the response payload otherwise; an unmatched
response changes nothing and raises no error. -/
theorem handleControlResponse_spec (q : QueryState) (msg : SystemMessage) (rd : JsonObj)
    (requestID : String)
    (hresp : msg.response = some rd)
    (hrid : objGet "request_id" rd = some (.str requestID)) :
    ((∀ ty₁ ty₂ st₁ st₂ d₁ d₂ rq₁ rq₂,
        handleControlResponse q ⟨ty₁, st₁, d₁, some rd, rq₁⟩ =
        handleControlResponse q ⟨ty₂, st₂, d₂, some rd, rq₂⟩) ∧
     (mapFind requestID q.requestMap = none →
        handleControlResponse q msg = (q, none, none)) ∧
     (mapFind requestID q.requestMap = some () →
        (handleControlResponse q msg).1.requestMap = mapErase requestID q.requestMap ∧
        mapFind requestID (handleControlResponse q msg).1.requestMap = none ∧
        (∀ k, k ≠ requestID →
          mapFind k (handleControlResponse q msg).1.requestMap = mapFind k q.requestMap) ∧
        (handleControlResponse q msg).2.2 = none ∧
        (strAssert rd "subtype" = "error" →
          ∃ errMsg, (handleControlResponse q msg).2.1 =
            some (requestID, .failure (NewControlProtocolError errMsg))) ∧
        (strAssert rd "subtype" ≠ "error" →
          (handleControlResponse q msg).2.1 =
            some (requestID, .success (objAssert rd "response"))))) := by
  refine ⟨?_, ?_, ?_⟩
  · intro ty₁ ty₂ st₁ st₂ d₁ d₂ rq₁ rq₂
    simp [handleControlResponse]
  · intro hnone
    simp [handleControlResponse, hresp, hrid, hnone]
  · intro hsome
    by_cases hsub : strAssert rd "subtype" = "error"
    · have hM : handleControlResponse q msg =
          ({ q with requestMap := mapErase requestID q.requestMap },
           some (requestID, .failure (NewControlProtocolError
             (if strAssert rd "error" = "" then "unknown control protocol error"
              else strAssert rd "error"))),
           none) := by
        simp [handleControlResponse, hresp, hrid, hsome, hsub]
      refine ⟨by rw [hM], by rw [hM]; exact mapFind_mapErase_self _ _,
        fun k hk => by rw [hM]; exact mapFind_mapErase_other _ _ hk _,
        by rw [hM], fun _ => ⟨_, by rw [hM]⟩, fun h => absurd hsub h⟩
    · have hM : handleControlResponse q msg =
          ({ q with requestMap := mapErase requestID q.requestMap },
           some (requestID, .success (objAssert rd "response")),
           none) := by
        simp [handleControlResponse, hresp, hrid, hsome, hsub]
      refine ⟨by rw [hM], by rw [hM]; exact mapFind_mapErase_self _ _,
        fun k hk => by rw [hM]; exact mapFind_mapErase_other _ _ hk _,
        by rw [hM], fun h => absurd h hsub, fun _ => by rw [hM]⟩

/-! Supporting lemmas for request-ID generation (C3): correctness of the
decimal rendering and of the `int64` wrap model. -/

/-- Value of a most-significant-first digit string. -/
def digitsVal (l : List Char) : Nat :=
  l.foldl (fun a c => a * 10 + (c.toNat - 48)) 0

theorem digitsVal_append_digit (xs : List Char) (c : Char) :
    digitsVal (xs ++ [c]) = 10 * digitsVal xs + (c.toNat - 48) := by
  simp [digitsVal, List.foldl_append]
  omega

theorem char_digit_toNat (d : Nat) (h : d < 10) :
    (Char.ofNat (48 + d)).toNat = 48 + d := by
  interval_cases d <;> decide

theorem natDigitsGo_cons (n : Nat) : ∀ (fuel : Nat) (c : Char) (acc : List Char), n < fuel →
    natDigitsGo fuel n (c :: acc) = natDigitsGo fuel n [] ++ c :: acc := by
  induction n using Nat.strong_induction_on with
  | _ n ih =>
    intro fuel c acc h
    match fuel with
    | f + 1 =>
      by_cases h10 : n < 10
      · simp [natDigitsGo, h10]
      · have hdiv : n / 10 < n := Nat.div_lt_self (by omega) (by omega)
        have hf : n / 10 < f := by omega
        simp only [natDigitsGo, if_neg h10]
        rw [ih (n / 10) hdiv f _ (c :: acc) hf, ih (n / 10) hdiv f _ [] hf]
        simp

theorem natDigitsGo_fuel (n : Nat) : ∀ (f1 f2 : Nat), n < f1 → n < f2 →
    natDigitsGo f1 n [] = natDigitsGo f2 n [] := by
  induction n using Nat.strong_induction_on with
  | _ n ih =>
    intro f1 f2 h1 h2
    match f1, f2 with
    | g1 + 1, g2 + 1 =>
      by_cases h10 : n < 10
      · simp [natDigitsGo, h10]
      · have hdiv : n / 10 < n := Nat.div_lt_self (by omega) (by omega)
        simp only [natDigitsGo, if_neg h10]
        rw [natDigitsGo_cons _ _ _ _ (by omega), natDigitsGo_cons _ _ _ _ (by omega),
          ih (n / 10) hdiv g1 g2 (by omega) (by omega)]

theorem natDigits_step (n : Nat) (h : ¬n < 10) :
    natDigits n = natDigits (n / 10) ++ [Char.ofNat (48 + n % 10)] := by
  have hdiv : n / 10 < n := Nat.div_lt_self (by omega) (by omega)
  show natDigitsGo (n + 1) n [] = _
  simp only [natDigitsGo, if_neg h]
  rw [natDigitsGo_cons _ _ _ _ (by omega),
    natDigitsGo_fuel (n / 10) n (n / 10 + 1) (by omega) (by omega)]
  rfl

theorem digitsVal_natDigits (n : Nat) : digitsVal (natDigits n) = n := by
  induction n using Nat.strong_induction_on with
  | _ n ih =>
    by_cases h : n < 10
    · have : natDigits n = [Char.ofNat (48 + n)] := by
        simp [natDigits, natDigitsGo, h]
      rw [this]
      simp [digitsVal, char_digit_toNat n h]
    · rw [natDigits_step n h, digitsVal_append_digit,
        ih (n / 10) (Nat.div_lt_self (by omega) (by omega)),
        char_digit_toNat (n % 10) (Nat.mod_lt n (by norm_num))]
      omega

theorem natDigits_injective : Function.Injective natDigits := by
  intro a b h
  have ha := digitsVal_natDigits a
  rw [h, digitsVal_natDigits] at ha
  omega

theorem natRepr_injective : Function.Injective natRepr := by
  intro a b h
  apply natDigits_injective
  have := congrArg String.data h
  simpa [natRepr] using this

theorem reqString_injective :
    Function.Injective (fun k : Nat => "req_" ++ natRepr k) := by
  intro a b h
  apply natRepr_injective
  have hd := congrArg String.data h
  simp only [String.data_append] at hd
  apply String.ext
  exact List.append_cancel_left hd

theorem wrapInt64_eq_self (x : Int) (h1 : -(2 ^ 63) ≤ x) (h2 : x < 2 ^ 63) :
    wrapInt64 x = x := by
  unfold wrapInt64
  rw [Int.emod_eq_of_lt (by omega) (by omega)]
  omega

/-- A run of `n` successive `generateRequestID` calls on a fresh
query counter, collecting the produced IDs in order. -/
def runGenerate : Nat → Int × List String
  | 0 => (0, [])
  | n + 1 =>
    let prev := runGenerate n
    let g := generateRequestID prev.1
    (g.1, prev.2 ++ [g.2])

theorem runGenerate_spec (n : Nat) (hn : n ≤ 2 ^ 63 - 1) :
    (runGenerate n).1 = n ∧
    (runGenerate n).2 = (List.range n).map (fun i => "req_" ++ natRepr (i + 1)) := by
  induction n with
  | zero => exact ⟨rfl, rfl⟩
  | succ m ih =>
    obtain ⟨h1, h2⟩ := ih (by omega)
    have hwrap : wrapInt64 ((m : Int) + 1) = (m : Int) + 1 :=
      wrapInt64_eq_self _ (by omega) (by omega)
    have hgen : generateRequestID (runGenerate m).1 =
        ((m : Int) + 1, "req_" ++ natRepr (m + 1)) := by
      rw [h1]
      simp only [generateRequestID, hwrap, intRepr]
      rw [if_neg (by omega)]
      norm_num
    constructor
    · show (generateRequestID (runGenerate m).1).1 = (m + 1 : Nat)
      rw [hgen]; push_cast; ring
    · show (runGenerate m).2 ++ [(generateRequestID (runGenerate m).1).2] = _
      rw [hgen, h2, List.range_succ]
      simp

/-- C3: request identifiers generated by a `Query` are locally unique
and monotonically increasing — a run of `n ≤ 2^63 - 1` calls on a fresh
counter yields exactly `req_1, …, req_n` in order, pairwise distinct, so
no two simultaneously-pending requests share an ID; each send that
reaches the wait has registered its single-slot channel under the
generated ID; and on context cancellation the slot is deregistered
(leaving every other pending entry untouched) and the call returns the
cancellation error. -/
theorem requestID_unique_monotone_and_cancel_deregisters :
    (∀ n : Nat, n ≤ 2 ^ 63 - 1 →
       (runGenerate n).1 = n ∧
       (runGenerate n).2 = (List.range n).map (fun i => "req_" ++ natRepr (i + 1)) ∧
       (runGenerate n).2.Nodup) ∧
    (∀ (q : QueryState) (t : SubprocessCLITransport) (req : JsonObj) (r : ResponseResult),
       q.isStreamingMode = true → t.ready = true → t.writerSet = true →
       (sendControlRequest q t req none (.response r)).1.requestMap =
         mapInsert (generateRequestID q.nextRequestID).2 () q.requestMap) ∧
    (∀ (q : QueryState) (t : SubprocessCLITransport) (req : JsonObj) (ctxErr : SDKError),
       q.isStreamingMode = true → t.ready = true → t.writerSet = true →
       (sendControlRequest q t req none (.ctxDone ctxErr)).2.2 = .error ctxErr ∧
       mapFind (generateRequestID q.nextRequestID).2
         (sendControlRequest q t req none (.ctxDone ctxErr)).1.requestMap = none ∧
       (∀ k, k ≠ (generateRequestID q.nextRequestID).2 →
         mapFind k (sendControlRequest q t req none (.ctxDone ctxErr)).1.requestMap =
           mapFind k q.requestMap)) := by
  refine ⟨?_, ?_, ?_⟩
  · intro n hn
    obtain ⟨h1, h2⟩ := runGenerate_spec n hn
    refine ⟨h1, h2, ?_⟩
    rw [h2]
    exact (List.nodup_range n).map
      (fun a b h => by exact Nat.succ_injective (reqString_injective h))
  · intro q t req r hq ht hw
    cases r <;> simp [sendControlRequest, SubprocessCLITransport.Write, hq, ht, hw]
  · intro q t req ctxErr hq ht hw
    have hM : sendControlRequest q t req none (.ctxDone ctxErr) =
        ({ q with nextRequestID := (generateRequestID q.nextRequestID).1,
                  requestMap := mapErase (generateRequestID q.nextRequestID).2
                    (mapInsert (generateRequestID q.nextRequestID).2 () q.requestMap) },
         t, .error ctxErr) := by
      simp [sendControlRequest, SubprocessCLITransport.Write, hq, ht, hw]
    refine ⟨by rw [hM], by rw [hM]; exact mapFind_mapErase_self _ _, ?_⟩
    intro k hk
    rw [hM]
    show mapFind k (mapErase _ (mapInsert _ () q.requestMap)) = mapFind k q.requestMap
    rw [mapFind_mapErase_other _ _ hk, mapFind_mapInsert_other _ _ hk]

/-- Closed witness for
`requestID_unique_monotone_and_cancel_deregisters`: three generated IDs
evaluated concretely, and a concrete cancelled send. -/
theorem requestID_unique_witness :
    let q : QueryState :=
      { requestMap := [], nextRequestID := 0, hookCallbacks := [],
        canUseTool := none, mcpServers := [], isStreamingMode := true }
    let t : SubprocessCLITransport :=
      { cmdSet := true, ready := true, err := none, writerSet := true }
    (runGenerate 3).2 = ["req_1", "req_2", "req_3"] ∧
    (runGenerate 3).2.Nodup ∧
    (sendControlRequest q t [] none (.ctxDone (.generic "context canceled"))).2.2 =
      .error (.generic "context canceled") ∧
    mapFind "req_1"
      (sendControlRequest q t [] none (.ctxDone (.generic "context canceled"))).1.requestMap
      = none := by
  intro q t
  have h := requestID_unique_monotone_and_cancel_deregisters
  have h3 := h.2.2 q t [] (.generic "context canceled") rfl rfl rfl
  refine ⟨by decide, (h.1 3 (by norm_num)).2.2, h3.1, ?_⟩
  have : (generateRequestID q.nextRequestID).2 = "req_1" := by decide
  rw [← this]
  exact h3.2.1

/-- C1 counterexample: first-error-wins does NOT hold across every
interleaving of `OnError` and `Write`.  At this concrete transport, a
decode error reported through `OnError` is stored first, and a
subsequent failing `Write` overwrites it (`Write` assigns `t.err`
unconditionally, `logger.go` transport `Write`), so `GetError` no longer
returns the first error observed. -/
theorem firstErrorWins_counterexample :
    let t0 : SubprocessCLITransport :=
      { cmdSet := true, ready := true, err := none, writerSet := true }
    let e1 : SDKError :=
      .jsonDecode "failed to read JSON line from subprocess" "" (some (.generic "read error"))
    let t1 := t0.OnError e1
    let t2 := (t1.Write (some (.generic "broken pipe"))).1
    t1.GetError = some e1 ∧
    t2.GetError = some (NewCLIConnectionErrorWithCause
      "failed to write to subprocess stdin" (.generic "broken pipe")) ∧
    t2.GetError ≠ some e1 := by
  refine ⟨rfl, rfl, ?_⟩
  intro h
  simp [SubprocessCLITransport.GetError, SubprocessCLITransport.Write,
    SubprocessCLITransport.OnError, NewCLIConnectionErrorWithCause] at h

/-- C1 amended: `GetError` returns the first error reported through
`OnError` — for every sequence of `OnError` calls the stored error is
the first one, and a later `OnError` never overwrites a stored error —
but a `Write` failure stores its connection error unconditionally,
overwriting any earlier stored error (and flipping readiness off). -/
theorem firstErrorWins_for_onError :
    (∀ (t : SubprocessCLITransport) (e : SDKError), t.err = none →
       (t.OnError e).GetError = some e) ∧
    (∀ (t : SubprocessCLITransport) (e0 e : SDKError), t.err = some e0 →
       (t.OnError e).GetError = some e0) ∧
    (∀ (es : List SDKError) (t : SubprocessCLITransport), t.err = none →
       (es.foldl SubprocessCLITransport.OnError t).GetError = es.head?) ∧
    (∀ (t : SubprocessCLITransport) (cause : SDKError),
       t.ready = true → t.writerSet = true →
       (t.Write (some cause)).1.GetError =
         some (NewCLIConnectionErrorWithCause "failed to write to subprocess stdin" cause) ∧
       (t.Write (some cause)).1.ready = false) := by
  have hkeep : ∀ (es : List SDKError) (t : SubprocessCLITransport) (e0 : SDKError),
      t.err = some e0 → (es.foldl SubprocessCLITransport.OnError t).err = some e0 := by
    intro es
    induction es with
    | nil => intro t e0 h; exact h
    | cons e rest ih =>
        intro t e0 h
        have : (t.OnError e).err = some e0 := by
          simp [SubprocessCLITransport.OnError, h]
        exact ih _ _ this
  refine ⟨?_, ?_, ?_, ?_⟩
  · intro t e h; simp [SubprocessCLITransport.OnError, SubprocessCLITransport.GetError, h]
  · intro t e0 e h; simp [SubprocessCLITransport.OnError, SubprocessCLITransport.GetError, h]
  · intro es t h
    cases es with
    | nil => simpa [SubprocessCLITransport.GetError] using h
    | cons e rest =>
        have h1 : (t.OnError e).err = some e := by
          simp [SubprocessCLITransport.OnError, h]
        simpa [SubprocessCLITransport.GetError] using hkeep rest (t.OnError e) e h1
  · intro t cause hr hw
    constructor <;> simp [SubprocessCLITransport.Write, SubprocessCLITransport.GetError, hr, hw]

/-- Closed witness for `firstErrorWins_for_onError`: a concrete
three-error `OnError` sequence keeps the first error, and a concrete
failing `Write` stores the write error. -/
theorem firstErrorWins_for_onError_witness :
    let t0 : SubprocessCLITransport :=
      { cmdSet := true, ready := true, err := none, writerSet := true }
    ([SDKError.generic "a", SDKError.generic "b", SDKError.generic "c"].foldl
        SubprocessCLITransport.OnError t0).GetError = some (.generic "a") ∧
    (t0.Write (some (.generic "pipe"))).1.GetError =
      some (NewCLIConnectionErrorWithCause "failed to write to subprocess stdin"
        (.generic "pipe")) := by
  intro t0
  exact ⟨firstErrorWins_for_onError.2.2.1 _ t0 rfl,
    (firstErrorWins_for_onError.2.2.2 t0 (.generic "pipe") rfl rfl).1⟩

/-- C5 counterexample: `Connect` after a successful `Close`, called with
a live caller context, is NOT invalid in the sense of failing — at this
concrete closed client it returns no error at all (`client.go`, line
201, returns `ctx.Err()` of the caller context, which is `nil`), while
silently leaving the client disconnected. -/
theorem clientConnect_after_close_counterexample :
    let connectedClient : Client :=
      { connected := true,
        transport := { cmdSet := true, ready := true, err := none, writerSet := true },
        query := some (NewQuery none true), canUseTool := none, ctxCancelled := false }
    let closedClient := (clientClose connectedClient (.ok ())).1
    let env : ConnectEnv :=
      { spawn := .ok (), initWriteRes := none,
        initOutcome := .response (.success none), cleanupWait := .ok (),
        callerCtxErr := none }
    (clientConnect closedClient env).2 = .ok () ∧
    (clientConnect closedClient env).1.connected = false := by
  intro connectedClient closedClient env
  exact ⟨rfl, rfl⟩

/-- C5 amended: the Session Client lifecycle — `Query`/`QueryWithContent`
fail with a connection error whenever the client is not in the Connected
state; `Connect` while Connected fails with the distinct
"client already connected" control-protocol error; after a `Close` the
client is disconnected and a second `Close` is a safe no-op returning no
error; `Connect` after `Close` never reconnects — the cancelled internal
client context short-circuits it, closing the transport again and
returning the error of the CALLER context, so with a live caller context
it returns no error while leaving the client disconnected, and with a
cancelled caller context it returns that context error. -/
theorem clientLifecycle_spec :
    (∀ (c : Client) (prompt : String) (io : Option SDKError), c.connected = false →
       clientQuery c prompt io =
         (c, .error (NewCLIConnectionError "not connected - call Connect() first"))) ∧
    (∀ (c : Client) (content : Option Json) (io : Option SDKError), c.connected = false →
       clientQueryWithContent c content io =
         (c, .error (NewCLIConnectionError "not connected - call Connect() first"))) ∧
    (∀ (c : Client) (env : ConnectEnv), c.connected = true →
       clientConnect c env = (c, .error (NewControlProtocolError "client already connected"))) ∧
    (∀ (c : Client) (w : Except SDKError Unit), c.connected = false →
       clientClose c w = (c, .ok ())) ∧
    (∀ (c : Client) (w : Except SDKError Unit) (env : ConnectEnv),
       c.connected = true → c.transport.cmdSet = true →
       (clientClose c w).1.connected = false ∧
       clientClose (clientClose c w).1 w = ((clientClose c w).1, .ok ()) ∧
       (env.callerCtxErr = none →
          (clientConnect (clientClose c w).1 env).2 = .ok () ∧
          (clientConnect (clientClose c w).1 env).1.connected = false) ∧
       (∀ e, env.callerCtxErr = some e →
          (clientConnect (clientClose c w).1 env).2 = .error e)) := by
  refine ⟨?_, ?_, ?_, ?_, ?_⟩
  · intro c prompt io h; simp [clientQuery, h]
  · intro c content io h; simp [clientQueryWithContent, h]
  · intro c env h; simp [clientConnect, h]
  · intro c w h; simp [clientClose, h]
  · intro c w env hc hcmd
    have hclose : (clientClose c w).1 =
        { c with connected := false, query := none,
                 transport := { c.transport with ready := false }, ctxCancelled := true } := by
      cases w <;> simp [clientClose, hc, SubprocessCLITransport.Close, hcmd]
    refine ⟨by rw [hclose], by rw [hclose]; simp [clientClose], ?_, ?_⟩
    · intro hnone
      rw [hclose]
      constructor <;>
        simp [clientConnect, SubprocessCLITransport.Connect, SubprocessCLITransport.Close,
          hcmd, hnone]
    · intro e he
      rw [hclose]
      simp [clientConnect, SubprocessCLITransport.Connect, SubprocessCLITransport.Close,
        hcmd, he]

/-- Closed witness for `clientLifecycle_spec`: a concrete connected
client — queries on an unconnected client fail with the connection
error, `Connect` on the connected client fails with the
already-connected error, and close-twice is a no-op. -/
theorem clientLifecycle_spec_witness :
    let q : QueryState := NewQuery none true
    let connectedClient : Client :=
      { connected := true,
        transport := { cmdSet := true, ready := true, err := none, writerSet := true },
        query := some q, canUseTool := none, ctxCancelled := false }
    let freshClient : Client := NewClient none
    let env : ConnectEnv :=
      { spawn := .ok (), initWriteRes := none,
        initOutcome := .response (.success none), cleanupWait := .ok (),
        callerCtxErr := none }
    clientQuery freshClient "hi" none =
      (freshClient, .error (NewCLIConnectionError "not connected - call Connect() first")) ∧
    clientConnect connectedClient env =
      (connectedClient, .error (NewControlProtocolError "client already connected")) ∧
    (clientClose connectedClient (.ok ())).1.connected = false ∧
    clientClose (clientClose connectedClient (.ok ())).1 (.ok ()) =
      ((clientClose connectedClient (.ok ())).1, .ok ()) ∧
    (clientConnect (clientClose connectedClient (.ok ())).1 env).2 = .ok () ∧
    (clientConnect (clientClose connectedClient (.ok ())).1 env).1.connected = false := by
  intro q connectedClient freshClient env
  have h5 := clientLifecycle_spec.2.2.2.2 connectedClient (.ok ()) env rfl rfl
  exact ⟨clientLifecycle_spec.1 freshClient "hi" none rfl,
    clientLifecycle_spec.2.2.1 connectedClient env rfl, h5.1, h5.2.1,
    (h5.2.2.1 rfl).1, (h5.2.2.1 rfl).2⟩

/-- The JSON-RPC error payload `handleMCPMessage` builds for an
unregistered server name (code `-32601`). -/
def mcpNotFoundPayload (serverName : String) (m : JsonObj) : JsonObj :=
  [("mcp_response", Json.obj [
    ("jsonrpc", Json.str "2.0"),
    ("id", (objGet "id" m).getD Json.null),
    ("error", Json.obj [
      ("code", Json.num "-32601"),
      ("message", Json.str ("Server \x27" ++ serverName ++ "\x27 not found"))])])]

/-- The JSON-RPC error payload `handleMCPMessage` builds when the
registered server whose `HandleMessage` returns an error (code `-32603`). -/
def mcpHandlerErrPayload (serverName : String) (m : JsonObj) (e : SDKError) : JsonObj :=
  [("mcp_response", Json.obj [
    ("jsonrpc", Json.str "2.0"),
    ("id", (objGet "id" m).getD Json.null),
    ("error", Json.obj [
      ("code", Json.num "-32603"),
      ("message", Json.str e.render)])])]

/-- C6: an inbound `mcp_message` control request for an unregistered
server name makes `handleMCPMessage` return, with no error, the JSON-RPC
`-32601` error payload, and `handleControlRequest` wraps it into a
*success* control-response envelope; a registered server whose
`HandleMessage` errors yields, again with no error, the JSON-RPC
`-32603` payload wrapped the same way — the control-protocol layer
succeeds in both cases. -/
theorem mcp_failures_wrapped_as_success (q : QueryState) (msg : SystemMessage)
    (rd : JsonObj) (rid sname : String) (m : JsonObj)
    (hdata : msg.data = none)
    (hreq : msg.request = some rd)
    (hrid : objGet "request_id" rd = some (.str rid))
    (hridne : rid ≠ "")
    (hsub : objGet "subtype" rd = some (.str "mcp_message"))
    (hsrv : objGet "server_name" rd = some (.str sname))
    (hsrvne : sname ≠ "")
    (hmsg : objGet "message" rd = some (.obj m)) :
    (mapFind sname q.mcpServers = none →
       handleMCPMessage q rd = .ok (mcpNotFoundPayload sname m) ∧
       handleControlRequest q msg = sendSuccessResponse rid (mcpNotFoundPayload sname m)) ∧
    (∀ (server : MCPServer) (e : SDKError),
       mapFind sname q.mcpServers = some server → server m = .error e →
       handleMCPMessage q rd = .ok (mcpHandlerErrPayload sname m e) ∧
       handleControlRequest q msg = sendSuccessResponse rid (mcpHandlerErrPayload sname m e)) := by
  constructor
  · intro hnone
    have hmcp : handleMCPMessage q rd = .ok (mcpNotFoundPayload sname m) := by
      simp [handleMCPMessage, strAssert, objAssert, hsrv, hmsg, hsrvne, hnone,
        mcpNotFoundPayload]
    refine ⟨hmcp, ?_⟩
    simp [handleControlRequest, strAssertOpt, strAssert, hdata, hreq, hrid, hridne, hsub, hmcp]
  · intro server e hfind herr
    have hmcp : handleMCPMessage q rd = .ok (mcpHandlerErrPayload sname m e) := by
      simp [handleMCPMessage, strAssert, objAssert, hsrv, hmsg, hsrvne, hfind, herr,
        mcpHandlerErrPayload]
    refine ⟨hmcp, ?_⟩
    simp [handleControlRequest, strAssertOpt, strAssert, hdata, hreq, hrid, hridne, hsub, hmcp]

/-- Closed witness for `mcp_failures_wrapped_as_success`: a concrete
request for a server that is not registered, and one whose handler
errors, evaluated on concrete envelopes. -/
theorem mcp_failures_witness :
    let failingServer : MCPServer := fun _ => .error (.generic "boom")
    let qEmpty : QueryState := NewQuery none true
    let qWith : QueryState := { NewQuery none true with mcpServers := [("srv", failingServer)] }
    let rd : JsonObj := [("request_id", Json.str "req_7"), ("subtype", Json.str "mcp_message"),
      ("server_name", Json.str "srv"), ("message", Json.obj [("id", Json.num "1")])]
    let msg : SystemMessage := ⟨"control_request", "", none, none, some rd⟩
    handleControlRequest qEmpty msg =
      sendSuccessResponse "req_7" (mcpNotFoundPayload "srv" [("id", Json.num "1")]) ∧
    handleControlRequest qWith msg =
      sendSuccessResponse "req_7" (mcpHandlerErrPayload "srv" [("id", Json.num "1")]
        (.generic "boom")) := by
  intro failingServer qEmpty qWith rd msg
  refine ⟨(mcp_failures_wrapped_as_success qEmpty msg rd "req_7" "srv" [("id", Json.num "1")]
      rfl rfl rfl (by decide) rfl rfl (by decide) rfl |>.1 rfl).2, ?_⟩
  exact (mcp_failures_wrapped_as_success qWith msg rd "req_7" "srv" [("id", Json.num "1")]
      rfl rfl rfl (by decide) rfl rfl (by decide) rfl |>.2 failingServer (.generic "boom")
      rfl rfl).2

/-- C10: for a `can_use_tool` request whose callback allows without an
updated input, the response payload always carries an `updatedInput` key
equal to the original input from the request; when the callback supplies
an updated input, that value is used instead (captured by
`upd.getD inp`, plus the two explicit cases). -/
theorem allow_echoes_original_input (q : QueryState) (cb : CanUseToolFunc) (rd : JsonObj)
    (toolName : String) (inp : JsonObj) (upd : Option JsonObj) (perms : List JsonObj)
    (hcb : q.canUseTool = some cb)
    (htool : objGet "tool_name" rd = some (.str toolName))
    (htoolne : toolName ≠ "")
    (hinp : objGet "input" rd = some (.obj inp))
    (hres : cb toolName inp ((arrAssert rd "permission_suggestions").filterMap (fun s =>
        match s with
        | .obj o => some o
        | _ => none)) = .ok (.allow upd perms)) :
    ∃ resp, handlePermissionRequest q rd = .ok resp ∧
      mapFind "behavior" resp = some (.str "allow") ∧
      mapFind "updatedInput" resp = some (.obj (upd.getD inp)) ∧
      (upd = none → mapFind "updatedInput" resp = some (.obj inp)) ∧
      (∀ u, upd = some u → mapFind "updatedInput" resp = some (.obj u)) := by
  have hshape : handlePermissionRequest q rd = .ok
      (if perms.length > 0 then
        mapInsert "updatedPermissions" (Json.arr (perms.map Json.obj))
          (mapInsert "updatedInput" (Json.obj (upd.getD inp))
            (mapInsert "behavior" (Json.str "allow") []))
       else
        mapInsert "updatedInput" (Json.obj (upd.getD inp))
          (mapInsert "behavior" (Json.str "allow") [])) := by
    simp [handlePermissionRequest, hcb, strAssert, objAssert, htool, htoolne, hinp, hres]
  refine ⟨_, hshape, ?_, ?_, ?_, ?_⟩
  · by_cases hp : perms.length > 0
    · rw [if_pos hp, mapFind_mapInsert_other _ _ (by decide),
        mapFind_mapInsert_other _ _ (by decide), mapFind_mapInsert_self]
    · rw [if_neg hp, mapFind_mapInsert_other _ _ (by decide), mapFind_mapInsert_self]
  · by_cases hp : perms.length > 0
    · rw [if_pos hp, mapFind_mapInsert_other _ _ (by decide), mapFind_mapInsert_self]
    · rw [if_neg hp, mapFind_mapInsert_self]
  · intro hu
    subst hu
    by_cases hp : perms.length > 0
    · rw [if_pos hp, mapFind_mapInsert_other _ _ (by decide), mapFind_mapInsert_self]
      rfl
    · rw [if_neg hp, mapFind_mapInsert_self]
      rfl
  · intro u hu
    subst hu
    by_cases hp : perms.length > 0
    · rw [if_pos hp, mapFind_mapInsert_other _ _ (by decide), mapFind_mapInsert_self]
      rfl
    · rw [if_neg hp, mapFind_mapInsert_self]
      rfl

/-- Closed witness for `allow_echoes_original_input`: a concrete
callback allowing without an updated input echoes the original input
back under `updatedInput`. -/
theorem allow_echoes_original_input_witness :
    let cb : CanUseToolFunc := fun _ _ _ => .ok (.allow none [])
    let q : QueryState := { NewQuery none true with canUseTool := some cb }
    let rd : JsonObj := [("tool_name", Json.str "Write"),
      ("input", Json.obj [("path", Json.str "a.txt")])]
    ∃ resp, handlePermissionRequest q rd = .ok resp ∧
      mapFind "updatedInput" resp = some (.obj [("path", Json.str "a.txt")]) := by
  intro cb q rd
  obtain ⟨resp, h1, _, h3, _, _⟩ :=
    allow_echoes_original_input q cb rd "Write" [("path", Json.str "a.txt")] none []
      rfl rfl (by decide) rfl rfl
  exact ⟨resp, h1, h3⟩

/-- C7 counterexample: a User-variant line whose `content` is neither a
string nor an array fails, but NOT with a parse error — the failure is a
JSON *decode* error (the `fmt.Errorf` shape mismatch wrapped by
`UnmarshalMessage`), and `IsMessageParseError`-style matching rejects it
through the whole cause chain. -/
theorem userContent_not_parse_error_counterexample :
    unmarshalMessageLine "\x7b\"type\":\"user\",\"content\":true\x7d" =
      .error (NewJSONDecodeErrorWithCause "failed to unmarshal user message"
        "\x7b\"type\":\"user\",\"content\":true\x7d"
        (.generic "content must be string or array of content blocks")) ∧
    isMessageParseError (NewJSONDecodeErrorWithCause "failed to unmarshal user message"
        "\x7b\"type\":\"user\",\"content\":true\x7d"
        (.generic "content must be string or array of content blocks")) = false := by
  exact ⟨rfl, rfl⟩

/-- C7 amended: decoding the `content` of a User-variant message first tries
a plain string (JSON `null` also succeeds there, leaving the content the
empty string, per the Go null no-op rule), then an ordered array of
ContentBlocks each dispatched on its own type discriminator; content of
any other shape (or a missing key) fails decoding, and the failure
surfaces through `UnmarshalMessage` as a JSON *decode* error wrapping
the shape mismatch, not a parse error. -/
theorem userContent_union_decoding (fields : JsonObj) (ty : String) (p : Option String)
    (raw : String)
    (hty : goFieldString (objGet "type" fields) = .ok ty)
    (hp : goFieldStringPtr (objGet "parent_tool_use_id" fields) = .ok p) :
    (∀ s, objGet "content" fields = some (.str s) →
       userUnmarshalJSON (.obj fields) = .ok ⟨ty, .ofString s, p⟩) ∧
    (objGet "content" fields = some .null →
       userUnmarshalJSON (.obj fields) = .ok ⟨ty, .ofString "", p⟩) ∧
    (∀ xs, objGet "content" fields = some (.arr xs) →
       userUnmarshalJSON (.obj fields) =
         (match unmarshalBlocks xs with
          | .ok blocks => .ok ⟨ty, .ofBlocks blocks, p⟩
          | .error e => .error e)) ∧
    (∀ j, objGet "content" fields = some j →
       (∀ s, j ≠ .str s) → j ≠ .null → (∀ xs, j ≠ .arr xs) →
       userUnmarshalJSON (.obj fields) =
         .error (.generic "content must be string or array of content blocks")) ∧
    (objGet "content" fields = none →
       userUnmarshalJSON (.obj fields) =
         .error (.generic "content must be string or array of content blocks")) ∧
    (∀ e, ty = "user" → userUnmarshalJSON (.obj fields) = .error e →
       UnmarshalMessage raw (.obj fields) =
         .error (NewJSONDecodeErrorWithCause "failed to unmarshal user message" raw e)) := by
  refine ⟨?_, ?_, ?_, ?_, ?_, ?_⟩
  · intro s hc
    simp [userUnmarshalJSON, hty, hp, hc, goFieldRaw, goRawAsString]
  · intro hc
    simp [userUnmarshalJSON, hty, hp, hc, goFieldRaw, goRawAsString]
  · intro xs hc
    simp [userUnmarshalJSON, hty, hp, hc, goFieldRaw, goRawAsString, goRawAsArr]
  · intro j hc hs hn ha
    cases j with
    | null => exact absurd rfl hn
    | str s => exact absurd rfl (hs s)
    | arr xs => exact absurd rfl (ha xs)
    | bool b => simp [userUnmarshalJSON, hty, hp, hc, goFieldRaw, goRawAsString, goRawAsArr]
    | num lex => simp [userUnmarshalJSON, hty, hp, hc, goFieldRaw, goRawAsString, goRawAsArr]
    | obj o => simp [userUnmarshalJSON, hty, hp, hc, goFieldRaw, goRawAsString, goRawAsArr]
  · intro hc
    simp [userUnmarshalJSON, hty, hp, hc, goFieldRaw, goRawAsString, goRawAsArr]
  · intro e htyUser herr
    subst htyUser
    simp [UnmarshalMessage, goTypeField, hty, herr]

/-- Closed witness for `userContent_union_decoding`: the three content
shapes evaluated on concrete envelopes — a plain string, a one-element
`tool_result` block array, and JSON `null`. -/
theorem userContent_union_decoding_witness :
    let fS : JsonObj := [("type", Json.str "user"), ("content", Json.str "hi")]
    let fB : JsonObj := [("type", Json.str "user"),
      ("content", Json.arr [Json.obj [("type", Json.str "tool_result"),
        ("tool_use_id", Json.str "toolu_1"), ("content", Json.str "ok")]])]
    let fN : JsonObj := [("type", Json.str "user"), ("content", Json.null)]
    userUnmarshalJSON (.obj fS) = .ok ⟨"user", .ofString "hi", none⟩ ∧
    userUnmarshalJSON (.obj fB) =
      .ok ⟨"user", .ofBlocks [.toolResult "tool_result" "toolu_1" (some (.str "ok")) none], none⟩ ∧
    userUnmarshalJSON (.obj fN) = .ok ⟨"user", .ofString "", none⟩ := by
  intro fS fB fN
  refine ⟨(userContent_union_decoding fS "user" none "" rfl rfl).1 "hi" rfl, ?_,
    (userContent_union_decoding fN "user" none "" rfl rfl).2.1 rfl⟩
  have h := (userContent_union_decoding fB "user" none "" rfl rfl).2.2.1
    [Json.obj [("type", Json.str "tool_result"),
      ("tool_use_id", Json.str "toolu_1"), ("content", Json.str "ok")]] rfl
  rw [h]
  rfl

theorem render_jsonDecode (m raw : String) (c : Option SDKError) :
    (SDKError.jsonDecode m raw c).render =
      (if raw ≠ "" then m ++ " (raw: " ++ jsonDecodeSnippet raw ++ ")" else m)
        ++ renderCause c := by
  rw [SDKError.render]

theorem renderCause_some (c : SDKError) : renderCause (some c) = ": " ++ c.render := by
  rw [renderCause]

theorem render_generic (m : String) : (SDKError.generic m).render = m := by
  rw [SDKError.render]

/-- C8: the message decoder fails closed — a scan failure (malformed
JSON) produces the decode error that stores the offending line, whose
rendered message carries the snippet of the line truncated to at most 100
characters; a well-formed object whose `type` discriminator is not a
known variant produces a parse error naming that type. -/
theorem decoder_fails_closed (s : String) :
    (∀ pe, goParseJson s = .error pe →
       unmarshalMessageLine s =
         .error (.jsonDecode "failed to determine message type" s (some (.generic pe))) ∧
       (∃ pre post,
          (SDKError.jsonDecode "failed to determine message type" s
            (some (.generic pe))).render = pre ++ jsonDecodeSnippet s ++ post) ∧
       (s.length ≤ 100 → jsonDecodeSnippet s = s) ∧
       (100 < s.length →
          jsonDecodeSnippet s = s.take 100 ++ "..." ∧ (s.take 100).length = 100)) ∧
    (∀ fields ty, goParseJson s = .ok (.obj fields) →
       goFieldString (objGet "type" fields) = .ok ty →
       ty ∉ (["user", "assistant", "system", "control_request", "control_response",
              "result", "stream_event"] : List String) →
       unmarshalMessageLine s = .error (.messageParse "unknown message type" ty none)) := by
  constructor
  · intro pe hpe
    refine ⟨by simp [unmarshalMessageLine, hpe, NewJSONDecodeErrorWithCause], ?_, ?_, ?_⟩
    · by_cases hs : s = ""
      · subst hs
        refine ⟨"failed to determine message type" ++ ": " ++ pe, "", ?_⟩
        rw [render_jsonDecode, renderCause_some, render_generic, if_neg (by simp)]
        apply String.ext
        simp [String.data_append, jsonDecodeSnippet]
      · refine ⟨"failed to determine message type" ++ " (raw: ", ")" ++ ": " ++ pe, ?_⟩
        rw [render_jsonDecode, renderCause_some, render_generic, if_pos hs]
        apply String.ext
        simp [String.data_append]
    · intro hle
      unfold jsonDecodeSnippet
      rw [if_neg (by omega)]
    · intro hgt
      refine ⟨by unfold jsonDecodeSnippet; rw [if_pos (by omega)], ?_⟩
      obtain ⟨data⟩ := s
      rw [String.take_eq]
      show (data.take 100).length = 100
      rw [List.length_take]
      have hgt' : 100 < data.length := hgt
      omega
  · intro fields ty hok hty hnotin
    have h1 : ty ≠ "user" := by intro h; exact hnotin (by simp [h])
    have h2 : ty ≠ "assistant" := by intro h; exact hnotin (by simp [h])
    have h3 : ty ≠ "system" := by intro h; exact hnotin (by simp [h])
    have h4 : ty ≠ "control_request" := by intro h; exact hnotin (by simp [h])
    have h5 : ty ≠ "control_response" := by intro h; exact hnotin (by simp [h])
    have h6 : ty ≠ "result" := by intro h; exact hnotin (by simp [h])
    have h7 : ty ≠ "stream_event" := by intro h; exact hnotin (by simp [h])
    rw [unmarshalMessageLine, hok]
    show UnmarshalMessage s (.obj fields) = _
    unfold UnmarshalMessage
    rw [goTypeField, hty]
    split <;> simp_all [NewMessageParseErrorWithType]

/-- Closed witness for `decoder_fails_closed`: the unknown discriminator
scenario and a malformed line, plus the truncation at a long line. -/
theorem decoder_fails_closed_witness :
    unmarshalMessageLine "\x7b\"type\":\"bogus\"\x7d" =
      .error (.messageParse "unknown message type" "bogus" none) ∧
    (∃ pe, goParseJson "not json" = .error pe ∧
      unmarshalMessageLine "not json" =
        .error (.jsonDecode "failed to determine message type" "not json"
          (some (.generic pe)))) ∧
    jsonDecodeSnippet (String.mk (List.replicate 150 'x')) =
      (String.mk (List.replicate 150 'x')).take 100 ++ "..." := by
  refine ⟨?_, ?_, ?_⟩
  · exact (decoder_fails_closed "\x7b\"type\":\"bogus\"\x7d").2
      [("type", Json.str "bogus")] "bogus" rfl rfl (by decide)
  · refine ⟨"invalid character looking for beginning of value", rfl, ?_⟩
    exact ((decoder_fails_closed "not json").1
      "invalid character looking for beginning of value" rfl).1
  · exact (((decoder_fails_closed (String.mk (List.replicate 150 'x'))).1
      "invalid character looking for beginning of value" (by rfl)).2.2.2 (by decide)).1

/-- Closed witness for `handleControlResponse_spec`, discharging its
hypotheses at a concrete pending table and control-response envelope. -/
theorem handleControlResponse_spec_witness :
    let q : QueryState :=
      { requestMap := [("req_1", ()), ("req_2", ())], nextRequestID := 2,
        hookCallbacks := [], canUseTool := none, mcpServers := [], isStreamingMode := true }
    let rd : JsonObj := [("request_id", Json.str "req_1"), ("subtype", Json.str "success"),
        ("response", Json.obj [("ok", Json.bool true)])]
    let msg : SystemMessage := ⟨"control_response", "", none, some rd, none⟩
    (handleControlResponse q msg).1.requestMap = mapErase "req_1" q.requestMap ∧
    (handleControlResponse q msg).2.2 = none := by
  intro q rd msg
  have h := handleControlResponse_spec q msg rd "req_1" rfl rfl
  exact ⟨(h.2.2 rfl).1, (h.2.2 rfl).2.2.2.1⟩

end SDK
